import Mathlib

/-!
# VIAI heterogeneous memory allocator: embedding and checked properties

A shallow embedding of `VIAI/include/viai_core/memory_pool.h` and
`VIAI/src/core/memory_pool.cpp`, followed by the configuration store and the plugin
loading path of `VIAI/include/viai_core/plugin_manager.h` and
`VIAI/src/core/plugin_manager.cpp`.

Conventions of the embedding.

* `void*` is a natural number, `0` being `nullptr`.
* `size_t` is a natural number below `2 ^ 64`; `+=`, `-=` and `++` on it wrap.
* `std::vector<MemoryBlock>` is a list; a `MemoryBlock*` obtained as
  `&blocks_.back()` is the index of that element.  A later `push_back` may move
  the vector's storage, after which the stored pointer dangles: dereferencing
  it has a defined result only while the element is still the last one.
* `std::unordered_map<void*, MemoryBlock*>` is an association list from
  addresses to such indices.
* `std::mutex` is a boolean (`true` = held).  A `std::lock_guard` taken on a
  mutex the caller already holds never returns.
* Every operation yields an `Option`, `none` standing for "the call has no
  defined result": it waits for ever on a mutex its caller holds, or it
  dereferences a pointer that a `push_back` has invalidated.
* `malloc`, `cudaMalloc`, `cudaMemcpy` and the clock are the platform: what
  they answer during a call is an argument of the operation.
* `fragmentation_ratio` (a `double` that the code only ever sets to `0.0`)
  is left out of `MemoryStatistics`.
-/

namespace v8_ai

/-! ## Machine arithmetic on `size_t` -/

/-- Number of values of a 64-bit `size_t`. -/
def SIZE_MOD : Nat := 2 ^ 64

/-- Wrapping `a + b` on `size_t`. -/
def sizeAdd (a b : Nat) : Nat := (a + b) % SIZE_MOD

/-- Wrapping `a - b` on `size_t`. -/
def sizeSub (a b : Nat) : Nat := (a + SIZE_MOD - b % SIZE_MOD) % SIZE_MOD

/-! ## Data model (`memory_pool.h`) -/

/-- The `enum class DeviceType`. -/
inductive DeviceType where
  | CPU
  | GPU
  | AUTO
  deriving DecidableEq

/-- The `struct MemoryBlock`; `lastUsed` is a clock reading. -/
structure MemoryBlock where
  ptr : Nat
  size : Nat
  isLocked : Bool
  isPinned : Bool
  lastUsed : Nat
  device : DeviceType
  tag : String
  deriving DecidableEq

/-- The constructor `MemoryBlock(p, s, d, t)`: it clears both flags and stamps the clock. -/
def MemoryBlock.new (p s : Nat) (d : DeviceType) (t : String) (now : Nat) : MemoryBlock :=
  { ptr := p, size := s, isLocked := false, isPinned := false, lastUsed := now,
    device := d, tag := t }

/-- The `enum class AllocationStrategy`. -/
inductive AllocationStrategy where
  | FIRST_FIT
  | BEST_FIT
  | WORST_FIT
  | BUDDY_SYSTEM
  deriving DecidableEq

/-- The `struct MemoryPoolConfig` (field values are supplied by the caller). -/
structure MemoryPoolConfig where
  initial_pool_size : Nat
  max_pool_size : Nat
  min_block_size : Nat
  max_block_size : Nat
  strategy : AllocationStrategy
  enable_defragmentation : Bool
  enable_statistics : Bool
  defragmentation_threshold : Nat
  deriving DecidableEq

/-- The `struct MemoryStatistics`, without its floating-point field. -/
structure MemoryStatistics where
  total_allocated : Nat
  total_free : Nat
  peak_usage : Nat
  allocation_count : Nat
  deallocation_count : Nat
  fragmentation_count : Nat
  deriving DecidableEq

/-- The in-class initialisers of `MemoryStatistics`: every counter starts at zero. -/
def MemoryStatistics.zero : MemoryStatistics :=
  { total_allocated := 0, total_free := 0, peak_usage := 0, allocation_count := 0,
    deallocation_count := 0, fragmentation_count := 0 }

/-- State of a `CPUMemoryPool` or of a `GPUMemoryPool`: the members of the base class
`MemoryPool`, the `allocated_blocks_` map both subclasses declare, and `freed`, a trace
of the addresses handed to `free` / `cudaFree` (most recent first). -/
structure MemoryPool where
  blocks_ : List MemoryBlock
  mutex_ : Bool
  config_ : MemoryPoolConfig
  stats_ : MemoryStatistics
  allocated_blocks_ : List (Nat × Nat)
  freed : List Nat
  deriving DecidableEq

/-- The constructor `MemoryPool(config)`: no block, no live handle, zeroed statistics. -/
def MemoryPool.new (config : MemoryPoolConfig) : MemoryPool :=
  { blocks_ := [], mutex_ := false, config_ := config, stats_ := MemoryStatistics.zero,
    allocated_blocks_ := [], freed := [] }

/-! ## `std::unordered_map` and `std::lock_guard` -/

/-- The lookup `m.find(k)`: the stored index, or `none` for `end()`. -/
def mapFind (m : List (Nat × Nat)) (k : Nat) : Option Nat := m.lookup k

/-- The removal `m.erase(it)` of the entry with key `k`. -/
def mapErase (m : List (Nat × Nat)) (k : Nat) : List (Nat × Nat) :=
  m.filter (fun e => e.1 != k)

/-- The assignment `m[k] = v`: insert, or overwrite the entry of `k`. -/
def mapAssign (m : List (Nat × Nat)) (k v : Nat) : List (Nat × Nat) :=
  (k, v) :: mapErase m k

/-- Run `body` under `std::lock_guard<std::mutex> lock(mutex_)`: the guard blocks for
ever when the mutex is already held, otherwise the body runs with the mutex held and
the mutex is released when the enclosing function returns. -/
def lockGuard {α : Type} (p : MemoryPool) (body : MemoryPool → Option (α × MemoryPool)) :
    Option (α × MemoryPool) :=
  if p.mutex_ then none
  else
    match body { p with mutex_ := true } with
    | none => none
    | some (a, q) => some (a, { q with mutex_ := false })

/-! ## Allocation strategies -/

/-- The free list a strategy searches: the records whose `isLocked` flag is clear,
in insertion order. -/
def freeList (blocks : List MemoryBlock) : List MemoryBlock :=
  blocks.filter (fun b => !b.isLocked)

/-- Modelled from the spec: `allocateFirstFit` is called by `allocateStrategy` but is
defined nowhere in the sources.  First-fit scans the free list in insertion order and
returns the first record with `size ≥ requested`. -/
def firstFit (free : List MemoryBlock) (requested : Nat) : Option MemoryBlock :=
  free.find? (fun b => decide (requested ≤ b.size))

/-- Modelled from the spec: `allocateBestFit` is called by `allocateStrategy` but is
defined nowhere in the sources.  Best-fit returns the free record with the smallest
`size ≥ requested`, the earliest inserted one on ties. -/
def bestFit (free : List MemoryBlock) (requested : Nat) : Option MemoryBlock :=
  free.foldl
    (fun best b =>
      if requested ≤ b.size then
        match best with
        | none => some b
        | some c => if b.size < c.size then some b else some c
      else best)
    none

/-- Modelled from the spec: `allocateWorstFit` is called by `allocateStrategy` but is
defined nowhere in the sources.  Worst-fit returns the free record with the largest
size (the earliest inserted one on ties), provided it satisfies the request. -/
def worstFit (free : List MemoryBlock) (requested : Nat) : Option MemoryBlock :=
  free.foldl
    (fun best b =>
      if requested ≤ b.size then
        match best with
        | none => some b
        | some c => if c.size < b.size then some b else some c
      else best)
    none

/-- The address a strategy hands back: the selected record's `ptr`, `nullptr` on "no fit". -/
def selectedPtr : Option MemoryBlock → Nat
  | some b => b.ptr
  | none => 0

/-- Modelled from the spec: the member `allocateFirstFit(size, device)`, first-fit over
the pool's free list. -/
def allocateFirstFit (p : MemoryPool) (size : Nat) (_device : DeviceType) : Nat :=
  selectedPtr (firstFit (freeList p.blocks_) size)

/-- Modelled from the spec: the member `allocateBestFit(size, device)`, best-fit over
the pool's free list. -/
def allocateBestFit (p : MemoryPool) (size : Nat) (_device : DeviceType) : Nat :=
  selectedPtr (bestFit (freeList p.blocks_) size)

/-- Modelled from the spec: the member `allocateWorstFit(size, device)`, worst-fit over
the pool's free list. -/
def allocateWorstFit (p : MemoryPool) (size : Nat) (_device : DeviceType) : Nat :=
  selectedPtr (worstFit (freeList p.blocks_) size)

/-! ## Bookkeeping shared by both pools -/

/-- The three statements `blocks_.push_back(block); allocated_blocks_[ptr] = &blocks_.back();`
after `MemoryBlock block(ptr, size, device, tag)`. -/
def recordBlock (p : MemoryPool) (block : MemoryBlock) : MemoryPool :=
  { p with blocks_ := p.blocks_ ++ [block],
           allocated_blocks_ := mapAssign p.allocated_blocks_ block.ptr p.blocks_.length }

/-- The statistics update of `allocate`: `total_allocated += size; allocation_count++;
peak_usage = std::max(peak_usage, total_allocated)`. -/
def bumpAllocStats (s : MemoryStatistics) (size : Nat) : MemoryStatistics :=
  let total := sizeAdd s.total_allocated size
  { s with total_allocated := total,
           allocation_count := sizeAdd s.allocation_count 1,
           peak_usage := max s.peak_usage total }

/-- The loop `for (block : blocks_) total += block.size`. -/
def sumSizes (blocks : List MemoryBlock) : Nat :=
  blocks.foldl (fun acc b => sizeAdd acc b.size) 0

/-- The loop `for (block : blocks_) if (!block.isLocked) free += block.size`. -/
def sumFree (blocks : List MemoryBlock) : Nat :=
  blocks.foldl (fun acc b => if !b.isLocked then sizeAdd acc b.size else acc) 0

/-- The loop `for (block : blocks_) if (block.isLocked) used += block.size`. -/
def sumUsed (blocks : List MemoryBlock) : Nat :=
  blocks.foldl (fun acc b => if b.isLocked then sizeAdd acc b.size else acc) 0

/-- Body of `freeBlock(block)` of either pool: a non-null `ptr` is handed to
`free` / `cudaFree` and then cleared. -/
def freeBlock (block : MemoryBlock) (freed : List Nat) : MemoryBlock × List Nat :=
  if block.ptr ≠ 0 then ({ block with ptr := 0 }, block.ptr :: freed) else (block, freed)

/-- Dereference `*it->second` of a `MemoryBlock*` that was stored as `&blocks_.back()`
when the element of index `i` was pushed.  The code never reserves capacity, so the
pointer is guaranteed to point into the vector only as long as no `push_back` has
followed, that is while the element is the last one; after that it may dangle and the
dereference has no defined result. -/
def derefBlock (blocks : List MemoryBlock) (i : Nat) : Option MemoryBlock :=
  if i + 1 = blocks.length then blocks[i]? else none

/-- Body both `deallocate` functions run under the lock: look the handle up, clear the
flag, stamp the clock, update the statistics, `freeBlock`, erase the map entry, all
through the stored `MemoryBlock*`. -/
def deallocateLocked (p : MemoryPool) (ptr now : Nat) : Option (Unit × MemoryPool) :=
  match mapFind p.allocated_blocks_ ptr with
  | none => some ((), p)
  | some i =>
    match derefBlock p.blocks_ i with
    | none => none
    | some block =>
      let block1 := { block with isLocked := false, lastUsed := now }
      let stats := { p.stats_ with
        total_allocated := sizeSub p.stats_.total_allocated block1.size,
        deallocation_count := sizeAdd p.stats_.deallocation_count 1 }
      let r := freeBlock block1 p.freed
      some ((), { p with blocks_ := p.blocks_.set i r.1, stats_ := stats, freed := r.2,
                         allocated_blocks_ := mapErase p.allocated_blocks_ ptr })

/-! ## `CPUMemoryPool` -/

namespace CPUMemoryPool

/-- `CPUMemoryPool::isDeviceSupported`. -/
def isDeviceSupported (device : DeviceType) : Bool :=
  device == DeviceType.CPU || device == DeviceType.AUTO

/-- `CPUMemoryPool::allocateStrategy`: dispatch on the configured strategy; the
buddy system falls through to `nullptr`. -/
def allocateStrategy (p : MemoryPool) (size : Nat) (device : DeviceType) : Nat :=
  if p.config_.strategy = AllocationStrategy.FIRST_FIT then allocateFirstFit p size device
  else if p.config_.strategy = AllocationStrategy.BEST_FIT then allocateBestFit p size device
  else if p.config_.strategy = AllocationStrategy.WORST_FIT then allocateWorstFit p size device
  else 0

/-- `CPUMemoryPool::canAllocate`: the size is not looked at. -/
def canAllocate (_p : MemoryPool) (_size : Nat) (device : DeviceType) : Bool :=
  isDeviceSupported device

/-- `CPUMemoryPool::allocateNewBlock`; `mallocRet` is what `malloc(size)` answers. -/
def allocateNewBlock (p : MemoryPool) (size : Nat) (device : DeviceType) (mallocRet : Nat) :
    Nat × MemoryPool :=
  if !canAllocate p size device then (0, p)
  else if mallocRet ≠ 0 then
    (mallocRet, { p with stats_ := { p.stats_ with
        total_allocated := sizeAdd p.stats_.total_allocated size } })
  else (mallocRet, p)

/-- `CPUMemoryPool::allocate`. -/
def allocate (p : MemoryPool) (size : Nat) (device : DeviceType) (tag : String)
    (mallocRet now : Nat) : Option (Nat × MemoryPool) :=
  if device ≠ DeviceType.CPU ∧ device ≠ DeviceType.AUTO then some (0, p)
  else
    lockGuard p fun p1 =>
      let ptr := allocateStrategy p1 size device
      if ptr ≠ 0 then
        let p2 := recordBlock p1 (MemoryBlock.new ptr size device tag now)
        some (ptr, { p2 with stats_ := bumpAllocStats p2.stats_ size })
      else
        let r := allocateNewBlock p1 size device mallocRet
        if r.1 ≠ 0 then
          let p2 := recordBlock r.2 (MemoryBlock.new r.1 size device tag now)
          some (r.1, { p2 with stats_ := bumpAllocStats p2.stats_ size })
        else some (0, r.2)

/-- `CPUMemoryPool::deallocate`. -/
def deallocate (p : MemoryPool) (ptr now : Nat) : Option MemoryPool :=
  if ptr = 0 then some p
  else (lockGuard p fun p1 => deallocateLocked p1 ptr now).map (fun r => r.2)

/-- `CPUMemoryPool::getTotalSize`. -/
def getTotalSize (p : MemoryPool) : Option Nat :=
  (lockGuard p fun p1 => some (sumSizes p1.blocks_, p1)).map (fun r => r.1)

/-- `CPUMemoryPool::getFreeSize`. -/
def getFreeSize (p : MemoryPool) : Option Nat :=
  (lockGuard p fun p1 => some (sumFree p1.blocks_, p1)).map (fun r => r.1)

/-- `CPUMemoryPool::getUsedSize`. -/
def getUsedSize (p : MemoryPool) : Option Nat :=
  (lockGuard p fun p1 => some (sumUsed p1.blocks_, p1)).map (fun r => r.1)

end CPUMemoryPool

/-! ## Memory contents and the CUDA runtime -/

/-- Byte contents of the address space: the byte stored at each address. -/
abbrev Memory := Nat → Nat

/-- The call `std::memcpy(dst, src, n)`: the `n` bytes at `dst` become those at `src`. -/
def memcpy (mem : Memory) (dst src n : Nat) : Memory :=
  fun a => if dst ≤ a ∧ a < dst + n then mem (src + (a - dst)) else mem a

/-- The `cudaMemcpyKind` values the sources use. -/
inductive cudaMemcpyKind where
  | cudaMemcpyHostToDevice
  | cudaMemcpyDeviceToHost
  | cudaMemcpyDeviceToDevice
  deriving DecidableEq

/-- The CUDA runtime as the platform provides it: `cudaMemcpy mem dst src count kind`
answers whether it returned `cudaSuccess` and what the memory holds afterwards. -/
structure CudaRuntime where
  cudaMemcpy : Memory → Nat → Nat → Nat → cudaMemcpyKind → Bool × Memory

namespace CPUMemoryPool

/-- `CPUMemoryPool::reallocate`.  The result is the returned address and the memory
contents; `block` is a reference obtained through the stored `MemoryBlock*`, so
`block.size` in the `memcpy` is read through that pointer again, after the nested
`allocate`. -/
def reallocate (p : MemoryPool) (mem : Memory) (ptr new_size : Nat) (mallocRet now : Nat) :
    Option ((Nat × Memory) × MemoryPool) :=
  if ptr = 0 then
    (allocate p new_size DeviceType.CPU "" mallocRet now).map (fun r => ((r.1, mem), r.2))
  else if new_size = 0 then
    (deallocate p ptr now).map (fun q => ((0, mem), q))
  else
    lockGuard p fun p1 =>
      match mapFind p1.allocated_blocks_ ptr with
      | none => some ((0, mem), p1)
      | some i =>
        match derefBlock p1.blocks_ i with
        | none => none
        | some block =>
          if new_size ≤ block.size then some ((ptr, mem), p1)
          else
            match allocate p1 new_size DeviceType.CPU block.tag mallocRet now with
            | none => none
            | some (new_ptr, p2) =>
              if new_ptr ≠ 0 then
                match derefBlock p2.blocks_ i with
                | none => none
                | some block2 =>
                  match deallocate p2 ptr now with
                  | none => none
                  | some p3 => some ((new_ptr, memcpy mem new_ptr ptr block2.size), p3)
              else some ((0, mem), p2)

end CPUMemoryPool

/-! ## `GPUMemoryPool` -/

namespace GPUMemoryPool

/-- `GPUMemoryPool::isDeviceSupported`. -/
def isDeviceSupported (device : DeviceType) : Bool :=
  device == DeviceType.GPU || device == DeviceType.AUTO

/-- `GPUMemoryPool::allocateStrategy`: always best fit. -/
def allocateStrategy (p : MemoryPool) (size : Nat) (device : DeviceType) : Nat :=
  allocateBestFit p size device

/-- `GPUMemoryPool::getTotalSize`. -/
def getTotalSize (p : MemoryPool) : Option Nat :=
  (lockGuard p fun p1 => some (sumSizes p1.blocks_, p1)).map (fun r => r.1)

/-- `GPUMemoryPool::getFreeSize`. -/
def getFreeSize (p : MemoryPool) : Option Nat :=
  (lockGuard p fun p1 => some (sumFree p1.blocks_, p1)).map (fun r => r.1)

/-- `GPUMemoryPool::getUsedSize`. -/
def getUsedSize (p : MemoryPool) : Option Nat :=
  (lockGuard p fun p1 => some (sumUsed p1.blocks_, p1)).map (fun r => r.1)

/-- `GPUMemoryPool::canAllocate`: it asks the public, locking `getFreeSize`. -/
def canAllocate (p : MemoryPool) (size : Nat) (device : DeviceType) : Option Bool :=
  if !isDeviceSupported device then some false
  else
    match getFreeSize p with
    | none => none
    | some free_memory => some (decide (free_memory ≥ size))

/-- `GPUMemoryPool::allocateNewBlock`; `cudaRet` is the address `cudaMalloc(&ptr, size)`
stores, `0` standing for a call that fails and leaves `ptr` null. -/
def allocateNewBlock (p : MemoryPool) (size : Nat) (device : DeviceType) (cudaRet : Nat) :
    Option (Nat × MemoryPool) :=
  match canAllocate p size device with
  | none => none
  | some false => some (0, p)
  | some true =>
    if cudaRet ≠ 0 then
      some (cudaRet, { p with stats_ := { p.stats_ with
        total_allocated := sizeAdd p.stats_.total_allocated size } })
    else some (cudaRet, p)

/-- `GPUMemoryPool::allocate`. -/
def allocate (p : MemoryPool) (size : Nat) (device : DeviceType) (tag : String)
    (cudaRet now : Nat) : Option (Nat × MemoryPool) :=
  if device ≠ DeviceType.GPU ∧ device ≠ DeviceType.AUTO then some (0, p)
  else
    lockGuard p fun p1 =>
      let ptr := allocateStrategy p1 size device
      if ptr ≠ 0 then
        let p2 := recordBlock p1 (MemoryBlock.new ptr size device tag now)
        some (ptr, { p2 with stats_ := bumpAllocStats p2.stats_ size })
      else
        match allocateNewBlock p1 size device cudaRet with
        | none => none
        | some r =>
          if r.1 ≠ 0 then
            let p2 := recordBlock r.2 (MemoryBlock.new r.1 size device tag now)
            some (r.1, { p2 with stats_ := bumpAllocStats p2.stats_ size })
          else some (0, r.2)

/-- `GPUMemoryPool::deallocate`. -/
def deallocate (p : MemoryPool) (ptr now : Nat) : Option MemoryPool :=
  if ptr = 0 then some p
  else (lockGuard p fun p1 => deallocateLocked p1 ptr now).map (fun r => r.2)

/-- `GPUMemoryPool::copyHostToDevice(host_ptr, device_ptr, size)`. -/
def copyHostToDevice (rt : CudaRuntime) (mem : Memory) (host_ptr device_ptr size : Nat) :
    Bool × Memory :=
  rt.cudaMemcpy mem device_ptr host_ptr size cudaMemcpyKind.cudaMemcpyHostToDevice

/-- `GPUMemoryPool::copyDeviceToHost(device_ptr, host_ptr, size)`. -/
def copyDeviceToHost (rt : CudaRuntime) (mem : Memory) (device_ptr host_ptr size : Nat) :
    Bool × Memory :=
  rt.cudaMemcpy mem host_ptr device_ptr size cudaMemcpyKind.cudaMemcpyDeviceToHost

/-- `GPUMemoryPool::copyDeviceToDevice(src_ptr, dst_ptr, size)`. -/
def copyDeviceToDevice (rt : CudaRuntime) (mem : Memory) (src_ptr dst_ptr size : Nat) :
    Bool × Memory :=
  rt.cudaMemcpy mem dst_ptr src_ptr size cudaMemcpyKind.cudaMemcpyDeviceToDevice

/-- `GPUMemoryPool::reallocate`; the copy of the old contents is a `cudaMemcpy` whose
status the code ignores. -/
def reallocate (rt : CudaRuntime) (p : MemoryPool) (mem : Memory) (ptr new_size : Nat)
    (cudaRet now : Nat) : Option ((Nat × Memory) × MemoryPool) :=
  if ptr = 0 then
    (allocate p new_size DeviceType.GPU "" cudaRet now).map (fun r => ((r.1, mem), r.2))
  else if new_size = 0 then
    (deallocate p ptr now).map (fun q => ((0, mem), q))
  else
    lockGuard p fun p1 =>
      match mapFind p1.allocated_blocks_ ptr with
      | none => some ((0, mem), p1)
      | some i =>
        match derefBlock p1.blocks_ i with
        | none => none
        | some block =>
          if new_size ≤ block.size then some ((ptr, mem), p1)
          else
            match allocate p1 new_size DeviceType.GPU block.tag cudaRet now with
            | none => none
            | some (new_ptr, p2) =>
              if new_ptr ≠ 0 then
                match derefBlock p2.blocks_ i with
                | none => none
                | some block2 =>
                  match deallocate p2 ptr now with
                  | none => none
                  | some p3 =>
                    some ((new_ptr,
                      (rt.cudaMemcpy mem new_ptr ptr block2.size
                        cudaMemcpyKind.cudaMemcpyDeviceToDevice).2), p3)
              else some ((0, mem), p2)

end GPUMemoryPool

/-! ## `UnifiedMemoryManager` -/

/-- State of a `UnifiedMemoryManager`: the two pools it owns, its own mutex and the
two stored configurations. -/
structure UnifiedMemoryManager where
  cpu_pool_ : MemoryPool
  gpu_pool_ : MemoryPool
  mutex_ : Bool
  cpu_config_ : MemoryPoolConfig
  gpu_config_ : MemoryPoolConfig
  deriving DecidableEq

namespace UnifiedMemoryManager

/-- Run `body` under the manager's own `std::lock_guard`; no pool operation touches
this mutex, so it is free again on return. -/
def managerGuard {α : Type} (m : UnifiedMemoryManager) (body : Option α) : Option α :=
  if m.mutex_ then none else body

/-- `UnifiedMemoryManager::allocate`. -/
def allocate (m : UnifiedMemoryManager) (size : Nat) (device : DeviceType) (tag : String)
    (mallocRet cudaRet now : Nat) : Option (Nat × UnifiedMemoryManager) :=
  managerGuard m <|
    if device = DeviceType.CPU then
      (CPUMemoryPool.allocate m.cpu_pool_ size device tag mallocRet now).map
        (fun r => (r.1, { m with cpu_pool_ := r.2 }))
    else if device = DeviceType.GPU then
      (GPUMemoryPool.allocate m.gpu_pool_ size device tag cudaRet now).map
        (fun r => (r.1, { m with gpu_pool_ := r.2 }))
    else if device = DeviceType.AUTO then
      match CPUMemoryPool.getFreeSize m.cpu_pool_ with
      | none => none
      | some cpu_free =>
        match GPUMemoryPool.getFreeSize m.gpu_pool_ with
        | none => none
        | some gpu_free =>
          if gpu_free ≥ size ∧ gpu_free > cpu_free then
            (GPUMemoryPool.allocate m.gpu_pool_ size DeviceType.GPU tag cudaRet now).map
              (fun r => (r.1, { m with gpu_pool_ := r.2 }))
          else
            (CPUMemoryPool.allocate m.cpu_pool_ size DeviceType.CPU tag mallocRet now).map
              (fun r => (r.1, { m with cpu_pool_ := r.2 }))
    else some (0, m)

/-- `UnifiedMemoryManager::deallocate`. -/
def deallocate (m : UnifiedMemoryManager) (ptr now : Nat) : Option UnifiedMemoryManager :=
  managerGuard m <|
    if CPUMemoryPool.isDeviceSupported DeviceType.CPU then
      (CPUMemoryPool.deallocate m.cpu_pool_ ptr now).map (fun q => { m with cpu_pool_ := q })
    else if GPUMemoryPool.isDeviceSupported DeviceType.GPU then
      (GPUMemoryPool.deallocate m.gpu_pool_ ptr now).map (fun q => { m with gpu_pool_ := q })
    else some m

/-- `UnifiedMemoryManager::copy(dst, src, size, dst_device, src_device)`: the returned
flag and the memory contents afterwards. -/
def copy (rt : CudaRuntime) (m : UnifiedMemoryManager) (mem : Memory) (dst src size : Nat)
    (dst_device src_device : DeviceType) : Option (Bool × Memory) :=
  managerGuard m <|
    if dst_device = DeviceType.CPU ∧ src_device = DeviceType.CPU then
      some (true, memcpy mem dst src size)
    else if dst_device = DeviceType.GPU ∧ src_device = DeviceType.CPU then
      some (GPUMemoryPool.copyHostToDevice rt mem src dst size)
    else if dst_device = DeviceType.CPU ∧ src_device = DeviceType.GPU then
      some (GPUMemoryPool.copyDeviceToHost rt mem src dst size)
    else if dst_device = DeviceType.GPU ∧ src_device = DeviceType.GPU then
      some (GPUMemoryPool.copyDeviceToDevice rt mem src dst size)
    else some (false, mem)

end UnifiedMemoryManager

/-! ## Sample configurations and states -/

/-- A configuration with `max_pool_size` of 1 MiB, 4 KiB to 256 MiB blocks, best fit. -/
def cfg1MiB : MemoryPoolConfig :=
  { initial_pool_size := 0, max_pool_size := 1048576, min_block_size := 4096,
    max_block_size := 268435456, strategy := AllocationStrategy.BEST_FIT,
    enable_defragmentation := true, enable_statistics := true,
    defragmentation_threshold := 100 }

/-- A fresh Host pool configured by `cfg1MiB`. -/
def freshPool : MemoryPool := MemoryPool.new cfg1MiB

/-- The pool `freshPool` after `allocate(4096, CPU, "")`, when `malloc` answered address
`1` and the clock read `7`: one record, one live handle. -/
def poolOneLive : MemoryPool :=
  { blocks_ := [MemoryBlock.new 1 4096 DeviceType.CPU "" 7], mutex_ := false,
    config_ := cfg1MiB,
    stats_ := { total_allocated := 8192, total_free := 0, peak_usage := 8192,
                allocation_count := 1, deallocation_count := 0, fragmentation_count := 0 },
    allocated_blocks_ := [(1, 0)], freed := [] }

/-- Issue `n` consecutive calls `allocate(size, CPU, "")` on a Host pool.  The call made
at clock reading `k` finds `malloc` ready to answer the fresh address `k + 1`.  The result
lists the returned handles in call order, with the final pool. -/
def allocateRepeat (size : Nat) : Nat → Nat → MemoryPool → Option (List Nat × MemoryPool)
  | 0, _, p => some ([], p)
  | n + 1, k, p =>
    match CPUMemoryPool.allocate p size DeviceType.CPU "" (k + 1) k with
    | none => none
    | some (h, p1) =>
      match allocateRepeat size n (k + 1) p1 with
      | none => none
      | some (hs, p2) => some (h :: hs, p2)

/-! ## Sequences of calls on a Host pool -/

/-- One call of `allocate` or `deallocate` on a pool, together with what `malloc` and the
clock answer during the call. -/
inductive PoolCall where
  | allocate (size : Nat) (device : DeviceType) (tag : String) (mallocRet now : Nat)
  | deallocate (ptr now : Nat)
  deriving DecidableEq

/-- Perform one call on a Host pool: the handle returned (`none` for `deallocate`, which
returns `void`) and the pool afterwards. -/
def CPUMemoryPool.perform (p : MemoryPool) : PoolCall → Option (Option Nat × MemoryPool)
  | PoolCall.allocate size device tag mallocRet now =>
    (CPUMemoryPool.allocate p size device tag mallocRet now).map (fun r => (some r.1, r.2))
  | PoolCall.deallocate ptr now =>
    (CPUMemoryPool.deallocate p ptr now).map (fun q => (none, q))

/-- Perform a sequence of calls one after the other; the result lists, for each call in
order, the handle it returned and the pool after it. -/
def CPUMemoryPool.performAll :
    MemoryPool → List PoolCall → Option (List (Option Nat × MemoryPool))
  | _, [] => some []
  | p, c :: cs =>
    match CPUMemoryPool.perform p c with
    | none => none
    | some r =>
      match CPUMemoryPool.performAll r.2 cs with
      | none => none
      | some rs => some (r :: rs)

/-- A pool holding one live record of `size` bytes at address `ptr`, as `allocate` leaves
it behind after a growth allocation at clock `0`. -/
def poolWithRecord (ptr size : Nat) (device : DeviceType) : MemoryPool :=
  { blocks_ := [MemoryBlock.new ptr size device "" 0], mutex_ := false, config_ := cfg1MiB,
    stats_ := { total_allocated := sizeAdd size size, total_free := 0,
                peak_usage := sizeAdd size size, allocation_count := 1,
                deallocation_count := 0, fragmentation_count := 0 },
    allocated_blocks_ := [(ptr, 0)], freed := [] }

/-- A manager over the two given pools, its own mutex free. -/
def managerOf (cpu gpu : MemoryPool) : UnifiedMemoryManager :=
  { cpu_pool_ := cpu, gpu_pool_ := gpu, mutex_ := false, cpu_config_ := cfg1MiB,
    gpu_config_ := cfg1MiB }

/-- Host free 100 MiB, Accelerator free 200 MiB. -/
def managerGpuRoomier : UnifiedMemoryManager :=
  managerOf (poolWithRecord 1 104857600 DeviceType.CPU)
    (poolWithRecord 500 209715200 DeviceType.GPU)

/-- Host free 100 MiB, Accelerator free 80 MiB. -/
def managerCpuRoomier : UnifiedMemoryManager :=
  managerOf (poolWithRecord 1 104857600 DeviceType.CPU)
    (poolWithRecord 500 83886080 DeviceType.GPU)

/-- A fresh Host pool next to an Accelerator pool in which handle `500` is live. -/
def managerGpuLive : UnifiedMemoryManager :=
  managerOf freshPool (poolWithRecord 500 4096 DeviceType.GPU)

/-- A CUDA runtime whose copies always succeed and move the bytes. -/
def sampleRuntime : CudaRuntime :=
  { cudaMemcpy := fun mem dst src count _ => (true, memcpy mem dst src count) }

/-- A memory in which every address holds its own number modulo 256. -/
def sampleMemory : Memory := fun a => a % 256

/-! ## Pinned memory (`CPUMemoryPool`) -/

/-- `CPUMemoryPool::allocatePinned`: it takes no lock; `mallocRet` is what `malloc(size)`
answers (`mlock` leaves no trace in the pool).  The record is flagged `isPinned`, the
statistics count the bytes and the call, `peak_usage` is not touched. -/
def CPUMemoryPool.allocatePinned (p : MemoryPool) (size : Nat) (tag : String)
    (mallocRet now : Nat) : Nat × MemoryPool :=
  if mallocRet ≠ 0 then
    let block := { MemoryBlock.new mallocRet size DeviceType.CPU tag now with isPinned := true }
    let p2 := recordBlock p block
    (mallocRet, { p2 with stats_ := { p2.stats_ with
        total_allocated := sizeAdd p2.stats_.total_allocated size,
        allocation_count := sizeAdd p2.stats_.allocation_count 1 } })
  else (mallocRet, p)

/-- Body `deallocatePinned` runs under the lock: a pinned record is unlocked from memory
and `free(ptr)` is called, the statistics are updated and the map entry erased; the
record in `blocks_` is not written to.  A record that is not pinned is left alone. -/
def deallocatePinnedLocked (p : MemoryPool) (ptr : Nat) : Option (Unit × MemoryPool) :=
  match mapFind p.allocated_blocks_ ptr with
  | none => some ((), p)
  | some i =>
    match derefBlock p.blocks_ i with
    | none => none
    | some block =>
      if block.isPinned then
        some ((), { p with
          freed := ptr :: p.freed,
          stats_ := { p.stats_ with
            total_allocated := sizeSub p.stats_.total_allocated block.size,
            deallocation_count := sizeAdd p.stats_.deallocation_count 1 },
          allocated_blocks_ := mapErase p.allocated_blocks_ ptr })
      else some ((), p)

/-- `CPUMemoryPool::deallocatePinned`. -/
def CPUMemoryPool.deallocatePinned (p : MemoryPool) (ptr : Nat) : Option MemoryPool :=
  if ptr = 0 then some p
  else (lockGuard p fun p1 => deallocatePinnedLocked p1 ptr).map (fun r => r.2)

/-! ## Default configuration (`MemoryPoolConfig`) -/

/-- Wrap an integer into the range of a 32-bit `int`. -/
def wrapInt32 (x : Int) : Int := (x + 2147483648) % 4294967296 - 2147483648

/-- Product of two `int` values, overflow taken modulo `2 ^ 32`. -/
def intMul (a b : Int) : Int := wrapInt32 (a * b)

/-- Conversion of an `int` to `size_t` (modulo `2 ^ 64`). -/
def intToSize (x : Int) : Nat := (x % 18446744073709551616).toNat

/-- The default member initialisers of `MemoryPoolConfig`; the products are `int`
expressions, evaluated left to right before the conversion to `size_t`. -/
def MemoryPoolConfig.default : MemoryPoolConfig :=
  { initial_pool_size := intToSize (intMul (intMul 1024 1024) 1024),
    max_pool_size := intToSize (intMul (intMul (intMul 4 1024) 1024) 1024),
    min_block_size := intToSize 4096,
    max_block_size := intToSize (intMul (intMul 256 1024) 1024),
    strategy := AllocationStrategy.BEST_FIT,
    enable_defragmentation := true,
    enable_statistics := true,
    defragmentation_threshold := intToSize 100 }

/-! ## Configuration accessors of the manager -/

/-- The constructor `UnifiedMemoryManager(cpu_config, gpu_config)`: the two pools are
built from the arguments; the members `cpu_config_` and `gpu_config_` are not assigned and
keep their default initialisers. -/
def UnifiedMemoryManager.new (cpu_config gpu_config : MemoryPoolConfig) :
    UnifiedMemoryManager :=
  { cpu_pool_ := MemoryPool.new cpu_config, gpu_pool_ := MemoryPool.new gpu_config,
    mutex_ := false, cpu_config_ := MemoryPoolConfig.default,
    gpu_config_ := MemoryPoolConfig.default }

/-- `UnifiedMemoryManager::updateConfig`. -/
def UnifiedMemoryManager.updateConfig (m : UnifiedMemoryManager) (config : MemoryPoolConfig)
    (device : DeviceType) : Option UnifiedMemoryManager :=
  UnifiedMemoryManager.managerGuard m <|
    if device = DeviceType.CPU then some { m with cpu_config_ := config }
    else if device = DeviceType.GPU then some { m with gpu_config_ := config }
    else some m

/-- `UnifiedMemoryManager::getConfig`. -/
def UnifiedMemoryManager.getConfig (m : UnifiedMemoryManager) (device : DeviceType) :
    Option MemoryPoolConfig :=
  UnifiedMemoryManager.managerGuard m <|
    if device = DeviceType.CPU then some m.cpu_config_
    else if device = DeviceType.GPU then some m.gpu_config_
    else some MemoryPoolConfig.default

/-! ## Typed allocator adapter (`MemoryAllocator<T>`) -/

/-- The class template `MemoryAllocator<T>`: the address of the manager it is bound to
and a device; the element type `T` only tags the adapter. -/
structure MemoryAllocator (T : Type) where
  memory_manager_ : Nat
  device_ : DeviceType
  deriving DecidableEq

/-- `MemoryAllocator<T>::operator==(const MemoryAllocator<U>&)`. -/
def MemoryAllocator.eq {T U : Type} (a : MemoryAllocator T) (other : MemoryAllocator U) : Bool :=
  a.memory_manager_ == other.memory_manager_ && a.device_ == other.device_

/-- `MemoryAllocator<T>::operator!=(const MemoryAllocator<U>&)`. -/
def MemoryAllocator.ne {T U : Type} (a : MemoryAllocator T) (other : MemoryAllocator U) : Bool :=
  !(MemoryAllocator.eq a other)

/-! ## Sample free lists -/

/-- A free record of the given size at the given address. -/
def freeRecord (ptr size : Nat) : MemoryBlock := MemoryBlock.new ptr size DeviceType.CPU "" 0

/-- Free records of sizes 256, 64 and 128, in insertion order. -/
def sampleFreeList : List MemoryBlock := [freeRecord 10 256, freeRecord 20 64, freeRecord 30 128]

/-- A Host pool whose records are `sampleFreeList`, none of them live, with the given
strategy. -/
def poolWithFreeList (strategy : AllocationStrategy) : MemoryPool :=
  { blocks_ := sampleFreeList, mutex_ := false,
    config_ := { cfg1MiB with strategy := strategy },
    stats_ := MemoryStatistics.zero, allocated_blocks_ := [], freed := [] }

/-- No record carries the `isLocked` flag. -/
def MemoryPool.noneLocked (p : MemoryPool) : Prop :=
  ∀ b ∈ p.blocks_, b.isLocked = false

/-! ## Statistics accessors and the destructor (`CPUMemoryPool`) -/

/-- `MemoryStatistics::reset`. -/
def MemoryStatistics.reset (_s : MemoryStatistics) : MemoryStatistics := MemoryStatistics.zero

/-- `CPUMemoryPool::getStatistics`. -/
def CPUMemoryPool.getStatistics (p : MemoryPool) : Option MemoryStatistics :=
  (lockGuard p fun p1 => some (p1.stats_, p1)).map (fun r => r.1)

/-- `CPUMemoryPool::resetStatistics`. -/
def CPUMemoryPool.resetStatistics (p : MemoryPool) : Option MemoryPool :=
  (lockGuard p fun p1 => some ((), { p1 with stats_ := p1.stats_.reset })).map (fun r => r.2)

/-- `CPUMemoryPool::~CPUMemoryPool`: every record whose `ptr` is not null has it handed to
`free`, in the order of `blocks_`.  The result is the complete trace of the addresses
handed to `free` over the life of the pool (most recent first). -/
def CPUMemoryPool.destroy (p : MemoryPool) : List Nat :=
  p.blocks_.foldl (fun freed block => if block.ptr ≠ 0 then block.ptr :: freed else freed)
    p.freed

/-! ## Plugin configuration (`plugin_interface.h`, `plugin_manager.h`) -/

/-- The `struct PluginConfig`; `extra_params` is a `std::map` of strings. -/
structure PluginConfig where
  name : String
  type : String
  model_path : String
  backend : String
  precision : String
  batch_size : Int
  enable_async : Bool
  enable_profiling : Bool
  extra_params : List (String × String)
  deriving DecidableEq

/-- The value-initialised `PluginConfig{}`: empty strings and the in-class initialisers. -/
def PluginConfig.default : PluginConfig :=
  { name := "", type := "", model_path := "", backend := "", precision := "",
    batch_size := 1, enable_async := true, enable_profiling := false, extra_params := [] }

/-- Lookup `m.find(k)` in a `std::unordered_map` keyed by strings. -/
def smapFind {α : Type} (m : List (String × α)) (k : String) : Option α := m.lookup k

/-- Removal of the entry with key `k` from a map keyed by strings. -/
def smapErase {α : Type} (m : List (String × α)) (k : String) : List (String × α) :=
  m.filter (fun e => e.1 != k)

/-- The assignment `m[k] = v` in a map keyed by strings. -/
def smapAssign {α : Type} (m : List (String × α)) (k : String) (v : α) : List (String × α) :=
  (k, v) :: smapErase m k

/-- State of a `PluginConfigManager`. -/
structure PluginConfigManager where
  config_file_ : String
  configs_ : List (String × PluginConfig)
  mutex_ : Bool
  deriving DecidableEq

namespace PluginConfigManager

/-- `PluginConfigManager::validateConfig`. -/
def validateConfig (config : PluginConfig) : Bool :=
  if config.name = "" ∨ config.model_path = "" then false
  else if config.batch_size ≤ 0 then false
  else true

/-- `PluginConfigManager::serializeToYAML`: a stub that answers true. -/
def serializeToYAML (_m : PluginConfigManager) (_file : String) : Bool := true

/-- `PluginConfigManager::saveConfig`: it takes the manager's mutex. -/
def saveConfig (m : PluginConfigManager) : Option Bool :=
  if m.mutex_ then none else some (serializeToYAML m m.config_file_)

/-- `PluginConfigManager::setPluginConfig`: under the lock it validates, stores, and
returns what the public `saveConfig` answers. -/
def setPluginConfig (m : PluginConfigManager) (plugin_id : String) (config : PluginConfig) :
    Option (Bool × PluginConfigManager) :=
  if m.mutex_ then none
  else
    let m1 := { m with mutex_ := true }
    if !validateConfig config then some (false, { m1 with mutex_ := false })
    else
      let m2 := { m1 with configs_ := smapAssign m1.configs_ plugin_id config }
      match saveConfig m2 with
      | none => none
      | some r => some (r, { m2 with mutex_ := false })

/-- `PluginConfigManager::getPluginConfig`. -/
def getPluginConfig (m : PluginConfigManager) (plugin_id : String) : Option PluginConfig :=
  if m.mutex_ then none
  else
    match smapFind m.configs_ plugin_id with
    | some config => some config
    | none => some PluginConfig.default

/-- `PluginConfigManager::getAllConfigs`. -/
def getAllConfigs (m : PluginConfigManager) : Option (List PluginConfig) :=
  if m.mutex_ then none else some (m.configs_.map (fun pair => pair.2))

end PluginConfigManager

/-- A `PluginConfigManager` as its constructor leaves it when no configuration has
been stored. -/
def emptyConfigManager : PluginConfigManager :=
  { config_file_ := "test_config.yaml", configs_ := [], mutex_ := false }

/-- The configuration the tests use: a name, a model path and `batch_size = 1`. -/
def testPluginConfig : PluginConfig :=
  { PluginConfig.default with name := "test_plugin", model_path := "test_model.onnx" }

/-! ## Plugin loading (`plugin_manager.h`) -/

/-- The `struct PluginHandle`; `plugin_instance` is the member `instance`, a shared pointer
given as an address (`0` for null). -/
structure PluginHandle where
  id : String
  path : String
  name : String
  version : String
  plugin_instance : Nat
  is_loaded : Bool
  is_initialized : Bool
  deriving DecidableEq

/-- What the platform and the plugin binaries answer: `dlopen`, `dlsym`, the call of a
`create_plugin` function found at an address, and `getInfo()` (name and version) of a
plugin instance.  Addresses are numbers, `0` is null. -/
structure DynamicLinker where
  dlopen : String → Nat
  dlsym : Nat → String → Nat
  create_plugin : Nat → Nat
  getInfo : Nat → String × String

/-- State of a `PluginLoader`. -/
structure PluginLoader where
  loaded_libraries_ : List (String × Nat)
  mutex_ : Bool
  deriving DecidableEq

namespace PluginLoader

/-- `PluginLoader::isPluginLoaded`: it takes the loader's mutex. -/
def isPluginLoaded (l : PluginLoader) (plugin_path : String) : Option Bool :=
  if l.mutex_ then none else some (smapFind l.loaded_libraries_ plugin_path).isSome

/-- `PluginLoader::loadPlugin`: under the loader's lock it first asks the public
`isPluginLoaded`. -/
def loadPlugin (dl : DynamicLinker) (l : PluginLoader) (plugin_path : String) :
    Option (Nat × PluginLoader) :=
  if l.mutex_ then none
  else
    let l1 := { l with mutex_ := true }
    match isPluginLoaded l1 plugin_path with
    | none => none
    | some true => some (0, { l1 with mutex_ := false })
    | some false =>
      let handle := dl.dlopen plugin_path
      if handle = 0 then some (0, { l1 with mutex_ := false })
      else
        let create_func := dl.dlsym handle "create_plugin"
        if create_func = 0 then some (0, { l1 with mutex_ := false })
        else
          let plugin := dl.create_plugin create_func
          if plugin ≠ 0 then
            some (plugin, { l1 with
              loaded_libraries_ := smapAssign l1.loaded_libraries_ plugin_path handle,
              mutex_ := false })
          else some (plugin, { l1 with mutex_ := false })

/-- `PluginLoader::unloadPlugin`. -/
def unloadPlugin (l : PluginLoader) (plugin_path : String) : Option (Bool × PluginLoader) :=
  if l.mutex_ then none
  else
    match smapFind l.loaded_libraries_ plugin_path with
    | some _ =>
      some (true, { l with loaded_libraries_ := smapErase l.loaded_libraries_ plugin_path })
    | none => some (false, l)

end PluginLoader

/-- State of a `PluginManager`: loaded plugins, registered factories (a `PluginFactory`
is given as a number naming the function), the loader, the manager's mutex and its
settings.  The discoverer, which only scans directories, is left out. -/
structure PluginManager where
  plugins_ : List (String × PluginHandle)
  factories_ : List (String × Nat)
  loader_ : PluginLoader
  mutex_ : Bool
  plugin_directory_ : String
  auto_discover_ : Bool
  auto_load_ : Bool
  deriving DecidableEq

namespace PluginManager

/-- `PluginManager::validatePluginConfig`. -/
def validatePluginConfig (config : PluginConfig) : Bool :=
  if config.name = "" ∨ config.model_path = "" then false
  else if config.batch_size ≤ 0 then false
  else true

/-- `PluginManager::generatePluginId`: the file name of the path, that is what follows
the last `/`. -/
def generatePluginId (path : String) : String :=
  String.mk ((path.toList.reverse.takeWhile (fun c => c != Char.ofNat 47)).reverse)

/-- `PluginManager::registerPlugin`. -/
def registerPlugin (m : PluginManager) (name : String) (factory : Nat) :
    Option (Bool × PluginManager) :=
  if m.mutex_ then none
  else some (true, { m with factories_ := smapAssign m.factories_ name factory })

/-- `PluginManager::loadPlugin`. -/
def loadPlugin (dl : DynamicLinker) (m : PluginManager) (plugin_path : String) :
    Option (Bool × PluginManager) :=
  if m.mutex_ then none
  else
    let plugin_id := generatePluginId plugin_path
    if (smapFind m.plugins_ plugin_id).isSome then some (true, m)
    else
      match PluginLoader.loadPlugin dl m.loader_ plugin_path with
      | none => none
      | some (plugin, l1) =>
        if plugin = 0 then some (false, { m with loader_ := l1 })
        else
          let handle : PluginHandle :=
            { id := plugin_id, path := plugin_path, plugin_instance := plugin,
              is_loaded := true, is_initialized := false,
              name := (dl.getInfo plugin).1, version := (dl.getInfo plugin).2 }
          some (true, { m with loader_ := l1,
                               plugins_ := smapAssign m.plugins_ plugin_id handle })

/-- `PluginManager::unloadPlugin` (the `cleanup()` of an initialised instance leaves no
trace in the manager). -/
def unloadPlugin (m : PluginManager) (plugin_id : String) : Option (Bool × PluginManager) :=
  if m.mutex_ then none
  else
    match smapFind m.plugins_ plugin_id with
    | none => some (false, m)
    | some handle =>
      match PluginLoader.unloadPlugin m.loader_ handle.path with
      | none => none
      | some (_, l1) =>
        some (true, { m with loader_ := l1, plugins_ := smapErase m.plugins_ plugin_id })

/-- `PluginManager::getPlugin`. -/
def getPlugin (m : PluginManager) (plugin_id : String) : Option Nat :=
  if m.mutex_ then none
  else
    match smapFind m.plugins_ plugin_id with
    | some handle => some handle.plugin_instance
    | none => some 0

/-- `PluginManager::isPluginLoaded`. -/
def isPluginLoaded (m : PluginManager) (plugin_id : String) : Option Bool :=
  if m.mutex_ then none else some (smapFind m.plugins_ plugin_id).isSome

/-- `PluginManager::isPluginInitialized`. -/
def isPluginInitialized (m : PluginManager) (plugin_id : String) : Option Bool :=
  if m.mutex_ then none
  else
    match smapFind m.plugins_ plugin_id with
    | some handle => some handle.is_initialized
    | none => some false

/-- `PluginManager::getPluginCount`. -/
def getPluginCount (m : PluginManager) : Option Nat :=
  if m.mutex_ then none else some m.plugins_.length

end PluginManager

/-- A `PluginManager` over the directory `test_plugins/` with nothing loaded and nothing
registered. -/
def emptyPluginManager : PluginManager :=
  { plugins_ := [], factories_ := [], loader_ := { loaded_libraries_ := [], mutex_ := false },
    mutex_ := false, plugin_directory_ := "test_plugins/", auto_discover_ := true,
    auto_load_ := true }

/-- A platform on which every library loads and every factory yields an instance. -/
def obligingLinker : DynamicLinker :=
  { dlopen := fun _ => 7, dlsym := fun _ _ => 8, create_plugin := fun _ => 9,
    getInfo := fun _ => ("Mock Plugin", "1.0.0") }

/-! ## Further operations of the manager and sequences of manager calls -/

/-- `GPUMemoryPool::resetStatistics`. -/
def GPUMemoryPool.resetStatistics (p : MemoryPool) : Option MemoryPool :=
  (lockGuard p fun p1 => some ((), { p1 with stats_ := p1.stats_.reset })).map (fun r => r.2)

/-- `CPUMemoryPool::defragment`: the body is empty. -/
def CPUMemoryPool.defragment (p : MemoryPool) : MemoryPool := p

/-- `GPUMemoryPool::defragment`: the body is empty. -/
def GPUMemoryPool.defragment (p : MemoryPool) : MemoryPool := p

/-- `UnifiedMemoryManager::reallocate`: the Host pool is asked first; when it answers
null the Accelerator pool is asked, and its answer is returned. -/
def UnifiedMemoryManager.reallocate (rt : CudaRuntime) (m : UnifiedMemoryManager)
    (mem : Memory) (ptr new_size mallocRet cudaRet now : Nat) :
    Option ((Nat × Memory) × UnifiedMemoryManager) :=
  UnifiedMemoryManager.managerGuard m <|
    match (if CPUMemoryPool.isDeviceSupported DeviceType.CPU then
        CPUMemoryPool.reallocate m.cpu_pool_ mem ptr new_size mallocRet now
      else some ((0, mem), m.cpu_pool_)) with
    | none => none
    | some ((new_ptr, mem1), cpu1) =>
      if new_ptr ≠ 0 then some ((new_ptr, mem1), { m with cpu_pool_ := cpu1 })
      else if GPUMemoryPool.isDeviceSupported DeviceType.GPU then
        (GPUMemoryPool.reallocate rt m.gpu_pool_ mem1 ptr new_size cudaRet now).map
          (fun r => (r.1, { m with cpu_pool_ := cpu1, gpu_pool_ := r.2 }))
      else some ((0, mem1), { m with cpu_pool_ := cpu1 })

/-- `UnifiedMemoryManager::resetStatistics`. -/
def UnifiedMemoryManager.resetStatistics (m : UnifiedMemoryManager) :
    Option UnifiedMemoryManager :=
  UnifiedMemoryManager.managerGuard m <|
    match CPUMemoryPool.resetStatistics m.cpu_pool_ with
    | none => none
    | some cpu1 =>
      match GPUMemoryPool.resetStatistics m.gpu_pool_ with
      | none => none
      | some gpu1 => some { m with cpu_pool_ := cpu1, gpu_pool_ := gpu1 }

/-- `UnifiedMemoryManager::optimizeMemoryUsage`. -/
def UnifiedMemoryManager.optimizeMemoryUsage (m : UnifiedMemoryManager) :
    Option UnifiedMemoryManager :=
  UnifiedMemoryManager.managerGuard m <|
    some { m with cpu_pool_ := CPUMemoryPool.defragment m.cpu_pool_,
                  gpu_pool_ := GPUMemoryPool.defragment m.gpu_pool_ }

/-- `UnifiedMemoryManager::defragment`. -/
def UnifiedMemoryManager.defragment (m : UnifiedMemoryManager) (device : DeviceType) :
    Option UnifiedMemoryManager :=
  UnifiedMemoryManager.managerGuard m <|
    if device = DeviceType.CPU then
      some { m with cpu_pool_ := CPUMemoryPool.defragment m.cpu_pool_ }
    else if device = DeviceType.GPU then
      some { m with gpu_pool_ := GPUMemoryPool.defragment m.gpu_pool_ }
    else some m

/-- One call of a public operation of `UnifiedMemoryManager` that is not `const`, together
with what `malloc`, `cudaMalloc` and the clock answer during the call. -/
inductive ManagerCall where
  | allocate (size : Nat) (device : DeviceType) (tag : String) (mallocRet cudaRet now : Nat)
  | deallocate (ptr now : Nat)
  | reallocate (ptr new_size mallocRet cudaRet now : Nat)
  | copy (dst src size : Nat) (dst_device src_device : DeviceType)
  | resetStatistics
  | optimizeMemoryUsage
  | defragment (device : DeviceType)
  | updateConfig (config : MemoryPoolConfig) (device : DeviceType)

/-- Perform one call on a manager: the manager and the memory contents afterwards. -/
def UnifiedMemoryManager.perform (rt : CudaRuntime) (s : UnifiedMemoryManager × Memory) :
    ManagerCall → Option (UnifiedMemoryManager × Memory)
  | ManagerCall.allocate size device tag mallocRet cudaRet now =>
    (UnifiedMemoryManager.allocate s.1 size device tag mallocRet cudaRet now).map
      (fun r => (r.2, s.2))
  | ManagerCall.deallocate ptr now =>
    (UnifiedMemoryManager.deallocate s.1 ptr now).map (fun m => (m, s.2))
  | ManagerCall.reallocate ptr new_size mallocRet cudaRet now =>
    (UnifiedMemoryManager.reallocate rt s.1 s.2 ptr new_size mallocRet cudaRet now).map
      (fun r => (r.2, r.1.2))
  | ManagerCall.copy dst src size dst_device src_device =>
    (UnifiedMemoryManager.copy rt s.1 s.2 dst src size dst_device src_device).map
      (fun r => (s.1, r.2))
  | ManagerCall.resetStatistics =>
    (UnifiedMemoryManager.resetStatistics s.1).map (fun m => (m, s.2))
  | ManagerCall.optimizeMemoryUsage =>
    (UnifiedMemoryManager.optimizeMemoryUsage s.1).map (fun m => (m, s.2))
  | ManagerCall.defragment device =>
    (UnifiedMemoryManager.defragment s.1 device).map (fun m => (m, s.2))
  | ManagerCall.updateConfig config device =>
    (UnifiedMemoryManager.updateConfig s.1 config device).map (fun m => (m, s.2))

/-- Perform a sequence of calls on a manager one after the other; the result lists the
manager and the memory contents after each call. -/
def UnifiedMemoryManager.performAll (rt : CudaRuntime) :
    UnifiedMemoryManager × Memory → List ManagerCall →
      Option (List (UnifiedMemoryManager × Memory))
  | _, [] => some []
  | s, c :: cs =>
    match UnifiedMemoryManager.perform rt s c with
    | none => none
    | some s1 =>
      match UnifiedMemoryManager.performAll rt s1 cs with
      | none => none
      | some rest => some (s1 :: rest)

/-- The Host pool after `allocate(64)` returned handle `1` (clock `0`) and `allocate(256)`
returned handle `2` (clock `1`) on a fresh pool, both served by `malloc`: two live records,
the one of handle `1` no longer the last element of `blocks_`. -/
def poolTwoLive : MemoryPool :=
  { blocks_ := [MemoryBlock.new 1 64 DeviceType.CPU "" 0,
                MemoryBlock.new 2 256 DeviceType.CPU "" 1],
    mutex_ := false,
    config_ := cfg1MiB,
    stats_ := { total_allocated := 640, total_free := 0, peak_usage := 640,
                allocation_count := 2, deallocation_count := 0, fragmentation_count := 0 },
    allocated_blocks_ := [(2, 1), (1, 0)], freed := [] }

/-! ## Basic facts about the embedding -/

theorem lockGuard_free {α : Type} (p : MemoryPool) (body : MemoryPool → Option (α × MemoryPool))
    (h : p.mutex_ = false) :
    lockGuard p body =
      (body { p with mutex_ := true }).map (fun r => (r.1, { r.2 with mutex_ := false })) := by
  unfold lockGuard
  rw [h]
  cases body { p with mutex_ := true } <;> rfl

theorem lockGuard_held {α : Type} (p : MemoryPool) (body : MemoryPool → Option (α × MemoryPool))
    (h : p.mutex_ = true) : lockGuard p body = none := by
  unfold lockGuard
  rw [h]
  rfl

theorem unlock_lock (p : MemoryPool) (h : p.mutex_ = false) :
    ({ ({ p with mutex_ := true } : MemoryPool) with mutex_ := false } : MemoryPool) = p := by
  cases p
  simp_all

theorem mapFind_mapAssign (m : List (Nat × Nat)) (k v : Nat) :
    mapFind (mapAssign m k v) k = some v := by
  simp [mapFind, mapAssign, List.lookup]

theorem mapFind_mapErase (m : List (Nat × Nat)) (k : Nat) :
    mapFind (mapErase m k) k = none := by
  induction m with
  | nil => rfl
  | cons e m ih =>
    obtain ⟨a, b⟩ := e
    unfold mapErase mapFind at *
    by_cases hk : a = k
    · have h1 : (a != k) = false := by simpa using hk
      simp only [List.filter, h1]
      exact ih
    · have h1 : (a != k) = true := by simpa using hk
      have h2 : (k == a) = false := by simpa using fun h => hk h.symm
      simp only [List.filter, h1, List.lookup, h2]
      exact ih

theorem set_concat (l : List MemoryBlock) (b c : MemoryBlock) :
    (l ++ [b]).set l.length c = l ++ [c] := by
  induction l with
  | nil => rfl
  | cons a l ih => simp [List.set, ih]

theorem getElem?_concat (l : List MemoryBlock) (b : MemoryBlock) :
    (l ++ [b])[l.length]? = some b := by
  simp

theorem sumFree_concat (l : List MemoryBlock) (b : MemoryBlock) :
    sumFree (l ++ [b]) = if !b.isLocked then sizeAdd (sumFree l) b.size else sumFree l := by
  simp [sumFree, List.foldl_append]

theorem derefBlock_last (l : List MemoryBlock) (b : MemoryBlock) :
    derefBlock (l ++ [b]) l.length = some b := by
  simp [derefBlock]

theorem derefBlock_newest (blocks : List MemoryBlock) (i : Nat)
    (h : i + 1 = blocks.length) : derefBlock blocks i = blocks[i]? := by
  simp [derefBlock, h]

theorem derefBlock_older (blocks : List MemoryBlock) (i : Nat)
    (h : i + 1 ≠ blocks.length) : derefBlock blocks i = none := by
  simp [derefBlock, h]

theorem getFreeSize_free (p : MemoryPool) (h : p.mutex_ = false) :
    CPUMemoryPool.getFreeSize p = some (sumFree p.blocks_) := by
  simp [CPUMemoryPool.getFreeSize, lockGuard_free _ _ h]

/-- Shape of the pool after a `CPUMemoryPool::allocate` that returned a handle: one record
is appended, the handle is mapped to it, the mutex is free again. -/
theorem CPU_allocate_shape (p p1 : MemoryPool) (size : Nat) (device : DeviceType)
    (tag : String) (mallocRet now h : Nat) (hm : p.mutex_ = false)
    (ha : CPUMemoryPool.allocate p size device tag mallocRet now = some (h, p1))
    (hh : h ≠ 0) :
    p1.blocks_ = p.blocks_ ++ [MemoryBlock.new h size device tag now] ∧
    p1.allocated_blocks_ = mapAssign p.allocated_blocks_ h p.blocks_.length ∧
    p1.mutex_ = false ∧ p1.config_ = p.config_ ∧ p1.freed = p.freed := by
  unfold CPUMemoryPool.allocate at ha
  split at ha
  · simp only [Option.some.injEq, Prod.mk.injEq] at ha
    exact absurd ha.1.symm hh
  · rw [lockGuard_free _ _ hm] at ha
    by_cases hs : CPUMemoryPool.allocateStrategy { p with mutex_ := true } size device = 0
    · simp only [hs, ne_eq, not_true_eq_false, ↓reduceIte] at ha
      unfold CPUMemoryPool.allocateNewBlock at ha
      split at ha
      · simp at ha
        exact absurd ha.1.symm hh
      · split at ha
        · simp [recordBlock, *] at ha
          obtain ⟨rfl, rfl⟩ := ha
          simp [MemoryBlock.new]
        · simp_all
    · simp only [hs, ne_eq, not_false_eq_true, ↓reduceIte] at ha
      simp [recordBlock] at ha
      obtain ⟨rfl, rfl⟩ := ha
      simp [MemoryBlock.new]

theorem CPU_allocate_eq (p : MemoryPool) (size : Nat) (device : DeviceType) (tag : String)
    (mallocRet now : Nat) (hm : p.mutex_ = false) :
    CPUMemoryPool.allocate p size device tag mallocRet now =
      if CPUMemoryPool.isDeviceSupported device = false then some (0, p)
      else if CPUMemoryPool.allocateStrategy p size device ≠ 0 then
        some (CPUMemoryPool.allocateStrategy p size device,
          { p with
            blocks_ := p.blocks_ ++
              [MemoryBlock.new (CPUMemoryPool.allocateStrategy p size device) size device tag now],
            allocated_blocks_ := mapAssign p.allocated_blocks_
              (CPUMemoryPool.allocateStrategy p size device) p.blocks_.length,
            stats_ := bumpAllocStats p.stats_ size })
      else if mallocRet ≠ 0 then
        some (mallocRet,
          { p with
            blocks_ := p.blocks_ ++ [MemoryBlock.new mallocRet size device tag now],
            allocated_blocks_ := mapAssign p.allocated_blocks_ mallocRet p.blocks_.length,
            stats_ := bumpAllocStats
              { p.stats_ with total_allocated := sizeAdd p.stats_.total_allocated size } size })
      else some (0, p) := by
  have hs' : CPUMemoryPool.allocateStrategy { p with mutex_ := true } size device =
      CPUMemoryPool.allocateStrategy p size device := rfl
  unfold CPUMemoryPool.allocate
  by_cases hd : CPUMemoryPool.isDeviceSupported device = false
  · have : device ≠ DeviceType.CPU ∧ device ≠ DeviceType.AUTO := by
      cases device <;> simp_all [CPUMemoryPool.isDeviceSupported]
    simp [hd, this]
  · have h1 : ¬ (device ≠ DeviceType.CPU ∧ device ≠ DeviceType.AUTO) := by
      cases device <;> simp_all [CPUMemoryPool.isDeviceSupported]
    rw [if_neg h1, if_neg hd, lockGuard_free _ _ hm]
    simp only [hs']
    by_cases hs : CPUMemoryPool.allocateStrategy p size device = 0
    · simp only [hs, ne_eq, not_true_eq_false, ↓reduceIte]
      have hc : CPUMemoryPool.canAllocate { p with mutex_ := true } size device = true := by
        simpa [CPUMemoryPool.canAllocate] using hd
      by_cases hmr : mallocRet = 0
      · have hnb : CPUMemoryPool.allocateNewBlock { p with mutex_ := true } size device mallocRet
            = (0, { p with mutex_ := true }) := by
          simp [CPUMemoryPool.allocateNewBlock, hc, hmr]
        rw [hnb]
        simp [hmr, unlock_lock p hm]
      · have hnb : CPUMemoryPool.allocateNewBlock { p with mutex_ := true } size device mallocRet
            = (mallocRet, { p with mutex_ := true, stats_ := { p.stats_ with
                total_allocated := sizeAdd p.stats_.total_allocated size } }) := by
          simp [CPUMemoryPool.allocateNewBlock, hc, hmr]
        rw [hnb]
        simp [hmr, recordBlock, MemoryBlock.new, hm]
    · simp [hs, recordBlock, MemoryBlock.new, hm]

/-- On an unlocked Accelerator pool `allocate` returns exactly when the device is refused
or the strategy finds a record; after a strategy miss `allocateNewBlock` asks `canAllocate`,
which calls the locking `getFreeSize` while `allocate` holds the mutex. -/
theorem GPU_allocate_eq (p : MemoryPool) (size : Nat) (device : DeviceType) (tag : String)
    (cudaRet now : Nat) (hm : p.mutex_ = false) :
    GPUMemoryPool.allocate p size device tag cudaRet now =
      if GPUMemoryPool.isDeviceSupported device = false then some (0, p)
      else if GPUMemoryPool.allocateStrategy p size device ≠ 0 then
        some (GPUMemoryPool.allocateStrategy p size device,
          { p with
            blocks_ := p.blocks_ ++
              [MemoryBlock.new (GPUMemoryPool.allocateStrategy p size device) size device tag now],
            allocated_blocks_ := mapAssign p.allocated_blocks_
              (GPUMemoryPool.allocateStrategy p size device) p.blocks_.length,
            stats_ := bumpAllocStats p.stats_ size })
      else none := by
  have hs' : GPUMemoryPool.allocateStrategy { p with mutex_ := true } size device =
      GPUMemoryPool.allocateStrategy p size device := rfl
  unfold GPUMemoryPool.allocate
  by_cases hd : GPUMemoryPool.isDeviceSupported device = false
  · have : device ≠ DeviceType.GPU ∧ device ≠ DeviceType.AUTO := by
      cases device <;> simp_all [GPUMemoryPool.isDeviceSupported]
    simp [hd, this]
  · have h1 : ¬ (device ≠ DeviceType.GPU ∧ device ≠ DeviceType.AUTO) := by
      cases device <;> simp_all [GPUMemoryPool.isDeviceSupported]
    rw [if_neg h1, if_neg hd, lockGuard_free _ _ hm]
    simp only [hs']
    by_cases hs : GPUMemoryPool.allocateStrategy p size device = 0
    · simp only [hs, ne_eq, not_true_eq_false, ↓reduceIte]
      have hd2 : GPUMemoryPool.isDeviceSupported device = true := by simpa using hd
      have hnb : GPUMemoryPool.allocateNewBlock { p with mutex_ := true } size device cudaRet
          = none := by
        simp [GPUMemoryPool.allocateNewBlock, GPUMemoryPool.canAllocate, hd2,
          GPUMemoryPool.getFreeSize, lockGuard_held]
      rw [hnb]
      rfl
    · simp [hs, recordBlock, MemoryBlock.new, hm]

theorem sumFree_lt (l : List MemoryBlock) : sumFree l < SIZE_MOD := by
  have key : ∀ (l : List MemoryBlock) (acc : Nat), acc < SIZE_MOD →
      l.foldl (fun acc b => if !b.isLocked then sizeAdd acc b.size else acc) acc < SIZE_MOD := by
    intro l
    induction l with
    | nil => intro acc h; simpa using h
    | cons b l ih =>
      intro acc h
      simp only [List.foldl]
      apply ih
      split
      · exact Nat.mod_lt _ (by decide)
      · exact h
  exact key l 0 (by decide)

/-! ## C1: round trip of `getFreeSize` -/

/-- C1 (code defect).  On a Host pool, whenever `allocate(size)` returns a handle `h`,
the following `deallocate(h)` returns and leaves `getFreeSize()` at the value before the
allocation plus `size` (modulo `2 ^ 64`), not at the value before: the record pushed by
`allocate` never has `isLocked` set, so it is counted as free from the start and stays in
`blocks_`.  Hence the round trip restores `getFreeSize()` for no size that is not a
multiple of `2 ^ 64`. -/
theorem C1_round_trip_leaves_size_behind (p p1 : MemoryPool) (size : Nat)
    (device : DeviceType) (tag : String) (mallocRet now now2 h F : Nat)
    (hm : p.mutex_ = false)
    (hF : CPUMemoryPool.getFreeSize p = some F)
    (ha : CPUMemoryPool.allocate p size device tag mallocRet now = some (h, p1))
    (hh : h ≠ 0) :
    ∃ p2, CPUMemoryPool.deallocate p1 h now2 = some p2 ∧
      CPUMemoryPool.getFreeSize p2 = some (sizeAdd F size) ∧
      (size % SIZE_MOD ≠ 0 → CPUMemoryPool.getFreeSize p2 ≠ some F) := by
  obtain ⟨hb, hmap, hm1, -, -⟩ := CPU_allocate_shape p p1 size device tag mallocRet now h hm ha hh
  rw [getFreeSize_free p hm] at hF
  simp only [Option.some.injEq] at hF
  have hF2 : F < SIZE_MOD := hF ▸ sumFree_lt _
  have hd : ∃ p2, CPUMemoryPool.deallocate p1 h now2 = some p2 ∧ p2.mutex_ = false ∧
      p2.blocks_ = p.blocks_ ++
        [{ MemoryBlock.new h size device tag now with ptr := 0, lastUsed := now2 }] := by
    unfold CPUMemoryPool.deallocate
    rw [if_neg hh, lockGuard_free _ _ hm1]
    unfold deallocateLocked
    simp only [hmap, mapFind_mapAssign, hb, derefBlock_last]
    simp [freeBlock, MemoryBlock.new, hh, set_concat]
  obtain ⟨p2, hp2, hm2, hb2⟩ := hd
  refine ⟨p2, hp2, ?_, ?_⟩
  · rw [getFreeSize_free p2 hm2, hb2, sumFree_concat]
    simp [MemoryBlock.new, hF]
  · intro hs
    rw [getFreeSize_free p2 hm2, hb2, sumFree_concat]
    simp only [MemoryBlock.new, Bool.not_false, ↓reduceIte, hF, ne_eq, Option.some.injEq]
    unfold sizeAdd
    unfold SIZE_MOD at *
    omega

/-- C1 at a concrete input: a fresh pool reports 0 free bytes; after `allocate(4096)` and
`deallocate` of the returned handle it reports 4096. -/
theorem C1_round_trip_witness :
    ∃ p2, CPUMemoryPool.deallocate poolOneLive 1 8 = some p2 ∧
      CPUMemoryPool.getFreeSize p2 = some (sizeAdd 0 4096) ∧
      (4096 % SIZE_MOD ≠ 0 → CPUMemoryPool.getFreeSize p2 ≠ some 0) :=
  C1_round_trip_leaves_size_behind freshPool poolOneLive 4096 DeviceType.CPU "" 1 7 8 1 0
    rfl rfl rfl (by decide)

theorem CPU_allocate_succeeds (p : MemoryPool) (size : Nat) (device : DeviceType)
    (tag : String) (mallocRet now : Nat) (hm : p.mutex_ = false)
    (hd : CPUMemoryPool.isDeviceSupported device = true) (hr : mallocRet ≠ 0) :
    ∃ h p1, CPUMemoryPool.allocate p size device tag mallocRet now = some (h, p1) ∧
      h ≠ 0 ∧ p1.mutex_ = false := by
  rw [CPU_allocate_eq p size device tag mallocRet now hm]
  simp only [hd, Bool.true_eq_false, ↓reduceIte]
  by_cases hs : CPUMemoryPool.allocateStrategy p size device = 0
  · rw [if_neg (not_not.mpr hs), if_pos hr]
    exact ⟨_, _, rfl, hr, hm⟩
  · rw [if_pos hs]
    exact ⟨_, _, rfl, hs, hm⟩

theorem allocateRepeat_succeeds (size : Nat) (n : Nat) :
    ∀ (k : Nat) (p : MemoryPool), p.mutex_ = false →
      ∃ hs q, allocateRepeat size n k p = some (hs, q) ∧ hs.length = n ∧
        (∀ h ∈ hs, h ≠ 0) ∧ q.mutex_ = false := by
  induction n with
  | zero => intro k p hm; exact ⟨[], p, rfl, rfl, by simp, hm⟩
  | succ n ih =>
    intro k p hm
    obtain ⟨h, p1, ha, hh, hm1⟩ :=
      CPU_allocate_succeeds p size DeviceType.CPU "" (k + 1) k hm rfl (by omega)
    obtain ⟨hs, q, hr, hl, hall, hq⟩ := ih (k + 1) p1 hm1
    refine ⟨h :: hs, q, ?_, by simp [hl], ?_, hq⟩
    · simp [allocateRepeat, ha, hr]
    · intro x hx
      rcases List.mem_cons.mp hx with rfl | hx
      · exact hh
      · exact hall x hx

/-! ## C2: capacity bound -/

/-- C2 refuted at a concrete input: on a fresh Host pool with `max_pool_size` of 1 MiB
the strategy finds nothing, and the growth allocation of 2 MiB still returns the address
`malloc` answered, although `total_allocated + size > max_size`. -/
theorem C2_growth_beyond_max_size_succeeds :
    freshPool.stats_.total_allocated + 2097152 > freshPool.config_.max_pool_size ∧
    CPUMemoryPool.allocateStrategy freshPool 2097152 DeviceType.CPU = 0 ∧
    ∃ p1, CPUMemoryPool.allocate freshPool 2097152 DeviceType.CPU "" 1 0 = some (1, p1) :=
  ⟨by decide, rfl, _, rfl⟩

/-- C2 (amended).  On a Host pool a growth allocation (supported device, strategy finds
no record) is decided by the underlying allocator alone: when `malloc` answers an address
the call returns that address and appends a record of `size` bytes, whatever
`total_allocated`, `size` and `max_pool_size` are; when `malloc` answers null the call
returns no handle and leaves the pool as it was.  With `max_pool_size` of 1 MiB, all 257
consecutive `allocate(4096)` calls return a handle. -/
theorem C2_growth_decided_by_allocator_alone (p : MemoryPool) (size : Nat)
    (device : DeviceType) (tag : String) (mallocRet now : Nat)
    (hm : p.mutex_ = false) (hd : CPUMemoryPool.isDeviceSupported device = true)
    (hs : CPUMemoryPool.allocateStrategy p size device = 0) :
    (mallocRet ≠ 0 →
      ∃ p1, CPUMemoryPool.allocate p size device tag mallocRet now = some (mallocRet, p1) ∧
        p1.blocks_ = p.blocks_ ++ [MemoryBlock.new mallocRet size device tag now]) ∧
    (mallocRet = 0 → CPUMemoryPool.allocate p size device tag mallocRet now = some (0, p)) ∧
    (∃ hs q, allocateRepeat 4096 257 0 freshPool = some (hs, q) ∧ hs.length = 257 ∧
      ∀ h ∈ hs, h ≠ 0) := by
  refine ⟨?_, ?_, ?_⟩
  · intro hr
    rw [CPU_allocate_eq p size device tag mallocRet now hm]
    simp [hd, hs, hr]
  · intro hr
    rw [CPU_allocate_eq p size device tag mallocRet now hm]
    simp [hd, hs, hr]
  · obtain ⟨hs, q, h1, h2, h3, -⟩ := allocateRepeat_succeeds 4096 257 0 freshPool rfl
    exact ⟨hs, q, h1, h2, h3⟩

/-- C2 (amended) at a concrete input: a fresh pool with `max_pool_size` of 1 MiB and a
request of 2 MiB. -/
theorem C2_growth_witness :
    (1 ≠ 0 →
      ∃ p1, CPUMemoryPool.allocate freshPool 2097152 DeviceType.CPU "" 1 0 = some (1, p1) ∧
        p1.blocks_ = freshPool.blocks_ ++
          [MemoryBlock.new 1 2097152 DeviceType.CPU "" 0]) ∧
    (1 = 0 → CPUMemoryPool.allocate freshPool 2097152 DeviceType.CPU "" 1 0 =
      some (0, freshPool)) ∧
    (∃ hs q, allocateRepeat 4096 257 0 freshPool = some (hs, q) ∧ hs.length = 257 ∧
      ∀ h ∈ hs, h ≠ 0) :=
  C2_growth_decided_by_allocator_alone freshPool 2097152 DeviceType.CPU "" 1 0 rfl rfl rfl

/-! ## C3: size validation -/

/-- C3 refuted at a concrete input: with `min_block_size` of 4096, `allocate(1)` on a
fresh Host pool returns a handle and changes both the block records and the statistics. -/
theorem C3_undersized_request_is_served :
    1 < freshPool.config_.min_block_size ∧
    ∃ p1, CPUMemoryPool.allocate freshPool 1 DeviceType.CPU "" 1 0 = some (1, p1) ∧
      p1.blocks_ ≠ freshPool.blocks_ ∧ p1.stats_ ≠ freshPool.stats_ :=
  ⟨by decide, _, rfl, by decide, by decide⟩

/-- C3 (amended).  `allocate` does not look at `min_block_size` or `max_block_size`.  On
a Host pool it returns for every size; it returns no handle exactly when the device is
unsupported, or the strategy finds no record and `malloc` answers null, and then the pool
is unchanged; otherwise it appends a record of `size` bytes.  Replacing the two bounds in
the configuration by any other values changes neither the returned handle nor the
resulting records and statistics, on the Host pool and on the Accelerator pool alike. -/
theorem C3_allocate_ignores_block_size_bounds (p : MemoryPool) (size : Nat)
    (device : DeviceType) (tag : String) (mallocRet now lo hi : Nat)
    (hm : p.mutex_ = false) :
    (∃ h p1, CPUMemoryPool.allocate p size device tag mallocRet now = some (h, p1) ∧
      (h = 0 ↔ (CPUMemoryPool.isDeviceSupported device = false ∨
        (CPUMemoryPool.allocateStrategy p size device = 0 ∧ mallocRet = 0))) ∧
      (h = 0 → p1 = p) ∧
      (h ≠ 0 → p1.blocks_ = p.blocks_ ++ [MemoryBlock.new h size device tag now]) ∧
      CPUMemoryPool.allocate
        { p with config_ := { p.config_ with min_block_size := lo, max_block_size := hi } }
        size device tag mallocRet now =
      some (h, { p1 with
        config_ := { p1.config_ with min_block_size := lo, max_block_size := hi } })) ∧
    GPUMemoryPool.allocate
        { p with config_ := { p.config_ with min_block_size := lo, max_block_size := hi } }
        size device tag mallocRet now =
      (GPUMemoryPool.allocate p size device tag mallocRet now).map (fun r => (r.1, { r.2 with
        config_ := { r.2.config_ with min_block_size := lo, max_block_size := hi } })) := by
  have hg' : GPUMemoryPool.allocateStrategy
      { p with config_ := { p.config_ with min_block_size := lo, max_block_size := hi } }
      size device = GPUMemoryPool.allocateStrategy p size device := rfl
  refine ⟨?_, ?_⟩
  swap
  · rw [GPU_allocate_eq p size device tag mallocRet now hm,
      GPU_allocate_eq _ size device tag mallocRet now (by simpa using hm), hg']
    split
    · rfl
    · split
      · rfl
      · rfl
  have hs' : CPUMemoryPool.allocateStrategy
      { p with config_ := { p.config_ with min_block_size := lo, max_block_size := hi } }
      size device = CPUMemoryPool.allocateStrategy p size device := rfl
  rw [CPU_allocate_eq p size device tag mallocRet now hm,
    CPU_allocate_eq _ size device tag mallocRet now (by simpa using hm), hs']
  by_cases hd : CPUMemoryPool.isDeviceSupported device = false
  · rw [if_pos hd, if_pos hd]
    exact ⟨0, p, rfl, by simp [hd], fun _ => rfl, fun h => absurd rfl h, rfl⟩
  · rw [if_neg hd, if_neg hd]
    by_cases hs : CPUMemoryPool.allocateStrategy p size device = 0
    · rw [if_neg (not_not.mpr hs), if_neg (not_not.mpr hs)]
      by_cases hr : mallocRet = 0
      · rw [if_neg (not_not.mpr hr), if_neg (not_not.mpr hr)]
        exact ⟨0, p, rfl, by simp [hs, hr], fun _ => rfl, fun h => absurd rfl h, rfl⟩
      · rw [if_pos hr, if_pos hr]
        exact ⟨_, _, rfl, by simp [hd, hs, hr], fun h => absurd h hr, fun _ => rfl, rfl⟩
    · rw [if_pos hs, if_pos hs]
      exact ⟨_, _, rfl, by simp [hd, hs], fun h => absurd h hs, fun _ => rfl, rfl⟩

/-- C3 (amended) at a concrete input: `allocate(1)` on a fresh pool whose configuration
asks for blocks of 4096 bytes at least. -/
theorem C3_allocate_witness :
    (∃ h p1, CPUMemoryPool.allocate freshPool 1 DeviceType.CPU "" 1 0 = some (h, p1) ∧
      (h = 0 ↔ (CPUMemoryPool.isDeviceSupported DeviceType.CPU = false ∨
        (CPUMemoryPool.allocateStrategy freshPool 1 DeviceType.CPU = 0 ∧ 1 = 0))) ∧
      (h = 0 → p1 = freshPool) ∧
      (h ≠ 0 → p1.blocks_ = freshPool.blocks_ ++ [MemoryBlock.new h 1 DeviceType.CPU "" 0]) ∧
      CPUMemoryPool.allocate
        { freshPool with
          config_ := { freshPool.config_ with min_block_size := 0, max_block_size := 8 } }
        1 DeviceType.CPU "" 1 0 =
      some (h, { p1 with
        config_ := { p1.config_ with min_block_size := 0, max_block_size := 8 } })) ∧
    GPUMemoryPool.allocate
        { freshPool with
          config_ := { freshPool.config_ with min_block_size := 0, max_block_size := 8 } }
        1 DeviceType.CPU "" 1 0 =
      (GPUMemoryPool.allocate freshPool 1 DeviceType.CPU "" 1 0).map (fun r => (r.1, { r.2 with
        config_ := { r.2.config_ with min_block_size := 0, max_block_size := 8 } })) :=
  C3_allocate_ignores_block_size_bounds freshPool 1 DeviceType.CPU "" 1 0 0 8 rfl

theorem deallocate_null (p : MemoryPool) (now : Nat) :
    CPUMemoryPool.deallocate p 0 now = some p := by
  simp [CPUMemoryPool.deallocate]

theorem deallocate_absent (p : MemoryPool) (ptr now : Nat) (hm : p.mutex_ = false)
    (ha : mapFind p.allocated_blocks_ ptr = none) :
    CPUMemoryPool.deallocate p ptr now = some p := by
  unfold CPUMemoryPool.deallocate
  split
  · rfl
  · rw [lockGuard_free _ _ hm]
    simp only [deallocateLocked, ha, Option.map_some']
    rw [unlock_lock p hm]

theorem deallocate_live (p : MemoryPool) (ptr now i : Nat) (b : MemoryBlock)
    (hm : p.mutex_ = false) (hp : ptr ≠ 0)
    (ha : mapFind p.allocated_blocks_ ptr = some i) (hnew : i + 1 = p.blocks_.length)
    (hb : p.blocks_[i]? = some b) :
    CPUMemoryPool.deallocate p ptr now = some
      { p with
        blocks_ := p.blocks_.set i (freeBlock { b with isLocked := false, lastUsed := now } p.freed).1,
        stats_ := { p.stats_ with
          total_allocated := sizeSub p.stats_.total_allocated b.size,
          deallocation_count := sizeAdd p.stats_.deallocation_count 1 },
        freed := (freeBlock { b with isLocked := false, lastUsed := now } p.freed).2,
        allocated_blocks_ := mapErase p.allocated_blocks_ ptr } := by
  unfold CPUMemoryPool.deallocate
  rw [if_neg hp, lockGuard_free _ _ hm]
  simp only [deallocateLocked, ha, derefBlock_newest _ _ hnew, hb, Option.map_some',
    Option.some.injEq]
  simp [hm]

/-- A live handle whose record is no longer the last element of `blocks_`: `deallocate`
goes through a `MemoryBlock*` that a later `push_back` has invalidated. -/
theorem deallocate_older (p : MemoryPool) (ptr now i : Nat)
    (hm : p.mutex_ = false) (hp : ptr ≠ 0)
    (ha : mapFind p.allocated_blocks_ ptr = some i) (hold : i + 1 ≠ p.blocks_.length) :
    CPUMemoryPool.deallocate p ptr now = none := by
  unfold CPUMemoryPool.deallocate
  rw [if_neg hp, lockGuard_free _ _ hm]
  simp [deallocateLocked, ha, derefBlock_older _ _ hold]

/-- C4 refuted at a concrete input.  `deallocate` returns `void`, so all a caller can
observe of a call is that it returns and what the pool is afterwards.  After
`allocate(4096)` returned handle `1`, the first `deallocate(1)` returns with pool `p2`; the
second `deallocate(1)` returns too, on either kind of pool, with the pool still exactly
`p2`: nothing is reported. -/
theorem C4_second_deallocate_is_accepted_silently :
    ∃ p2, CPUMemoryPool.deallocate poolOneLive 1 8 = some p2 ∧ p2 ≠ poolOneLive ∧
      CPUMemoryPool.deallocate p2 1 9 = some p2 ∧
      GPUMemoryPool.deallocate p2 1 9 = some p2 :=
  ⟨_, rfl, by decide, rfl, rfl⟩

/-- C4 (amended).  For the handle `h` of the newest record of a pool (the handle the latest
`allocate` returned, no record having been added since), the first `deallocate(h)` returns,
removes `h` from the live-handle map and raises `deallocation_count` by one; a second
`deallocate(h)` with no allocation in between returns as well and leaves the whole pool
state unchanged.  The Accelerator pool runs the same body. -/
theorem C4_second_deallocate_is_a_no_op (p1 : MemoryPool) (h i now now2 : Nat)
    (b : MemoryBlock) (hm : p1.mutex_ = false) (hh : h ≠ 0)
    (hlive : mapFind p1.allocated_blocks_ h = some i)
    (hnew : i + 1 = p1.blocks_.length) (hb : p1.blocks_[i]? = some b) :
    ∃ p2, CPUMemoryPool.deallocate p1 h now = some p2 ∧
      GPUMemoryPool.deallocate p1 h now = some p2 ∧
      mapFind p2.allocated_blocks_ h = none ∧
      p2.stats_.deallocation_count = sizeAdd p1.stats_.deallocation_count 1 ∧
      CPUMemoryPool.deallocate p2 h now2 = some p2 ∧
      GPUMemoryPool.deallocate p2 h now2 = some p2 := by
  have h1 := deallocate_live p1 h now i b hm hh hlive hnew hb
  refine ⟨_, h1, h1, mapFind_mapErase _ _, rfl, ?_, ?_⟩
  · exact deallocate_absent _ h now2 hm (mapFind_mapErase _ _)
  · exact deallocate_absent _ h now2 hm (mapFind_mapErase _ _)

/-- C4 (amended) at a concrete input: the handle `1` of `poolOneLive`, the pool right after
`allocate(4096)` returned `1` on a fresh pool. -/
theorem C4_second_deallocate_witness :
    ∃ p2, CPUMemoryPool.deallocate poolOneLive 1 8 = some p2 ∧
      GPUMemoryPool.deallocate poolOneLive 1 8 = some p2 ∧
      mapFind p2.allocated_blocks_ 1 = none ∧
      p2.stats_.deallocation_count = sizeAdd poolOneLive.stats_.deallocation_count 1 ∧
      CPUMemoryPool.deallocate p2 1 9 = some p2 ∧
      GPUMemoryPool.deallocate p2 1 9 = some p2 :=
  C4_second_deallocate_is_a_no_op poolOneLive 1 0 8 9
    (MemoryBlock.new 1 4096 DeviceType.CPU "" 7) rfl (by decide) rfl rfl rfl

/-- On an unlocked pool a `deallocate` that returns leaves the mutex free and the peak
untouched. -/
theorem deallocate_returns (p q : MemoryPool) (ptr now : Nat) (hm : p.mutex_ = false)
    (hd : CPUMemoryPool.deallocate p ptr now = some q) :
    q.mutex_ = false ∧ q.stats_.peak_usage = p.stats_.peak_usage := by
  by_cases hp : ptr = 0
  · subst hp
    rw [deallocate_null] at hd
    cases hd
    exact ⟨hm, rfl⟩
  · cases ha : mapFind p.allocated_blocks_ ptr with
    | none =>
      rw [deallocate_absent p ptr now hm ha] at hd
      cases hd
      exact ⟨hm, rfl⟩
    | some i =>
      by_cases hnew : i + 1 = p.blocks_.length
      · have hi : i < p.blocks_.length := by omega
        rw [deallocate_live p ptr now i _ hm hp ha hnew (List.getElem?_eq_getElem hi)] at hd
        cases hd
        exact ⟨hm, rfl⟩
      · rw [deallocate_older p ptr now i hm hp ha hnew] at hd
        cases hd

/-- On an unlocked pool `allocate` returns; the peak does not decrease, and after a
returned handle it is at least `total_allocated`. -/
theorem allocate_total (p : MemoryPool) (size : Nat) (device : DeviceType) (tag : String)
    (mallocRet now : Nat) (hm : p.mutex_ = false) :
    ∃ h q, CPUMemoryPool.allocate p size device tag mallocRet now = some (h, q) ∧
      q.mutex_ = false ∧ p.stats_.peak_usage ≤ q.stats_.peak_usage ∧
      (h ≠ 0 → q.stats_.total_allocated ≤ q.stats_.peak_usage) := by
  rw [CPU_allocate_eq p size device tag mallocRet now hm]
  split
  · exact ⟨0, p, rfl, hm, le_refl _, fun h => absurd rfl h⟩
  · split
    · exact ⟨_, _, rfl, hm, le_max_left _ _, fun _ => le_max_right _ _⟩
    · split
      · exact ⟨_, _, rfl, hm, le_max_left _ _, fun _ => le_max_right _ _⟩
      · exact ⟨0, p, rfl, hm, le_refl _, fun h => absurd rfl h⟩

/-- One call that returns on an unlocked pool leaves the mutex free and the peak at least
where it was, and at least `total_allocated` after an `allocate` that returned a handle. -/
theorem perform_returns (p : MemoryPool) (c : PoolCall) (r : Option Nat × MemoryPool)
    (hm : p.mutex_ = false) (hr : CPUMemoryPool.perform p c = some r) :
    r.2.mutex_ = false ∧ p.stats_.peak_usage ≤ r.2.stats_.peak_usage ∧
      ∀ h, r.1 = some h → h ≠ 0 → r.2.stats_.total_allocated ≤ r.2.stats_.peak_usage := by
  cases c with
  | allocate size device tag mallocRet now =>
    obtain ⟨h, q, ha, hq, hpk, htot⟩ := allocate_total p size device tag mallocRet now hm
    simp only [CPUMemoryPool.perform, ha, Option.map_some', Option.some.injEq] at hr
    subst hr
    refine ⟨hq, hpk, ?_⟩
    intro h2 he hne
    simp only [Option.some.injEq] at he
    exact htot (he ▸ hne)
  | deallocate ptr now =>
    cases hd : CPUMemoryPool.deallocate p ptr now with
    | none => simp [CPUMemoryPool.perform, hd] at hr
    | some q =>
      simp only [CPUMemoryPool.perform, hd, Option.map_some', Option.some.injEq] at hr
      subst hr
      obtain ⟨hq, hpk⟩ := deallocate_returns p q ptr now hm hd
      exact ⟨hq, le_of_eq hpk.symm, by simp⟩

/-- C6.  With `cpu_free` and `gpu_free` the values the two pools report through
`getFreeSize()`, `UnifiedMemoryManager::allocate(size, AUTO, tag)` is the Accelerator
pool's `allocate(size, GPU, tag)` (the Host pool untouched) when `gpu_free ≥ size` and
`gpu_free > cpu_free`, and the Host pool's `allocate(size, CPU, tag)` (the Accelerator pool
untouched) in every other case. -/
theorem C6_auto_placement (m : UnifiedMemoryManager) (size : Nat) (tag : String)
    (mallocRet cudaRet now cpu_free gpu_free : Nat) (hm : m.mutex_ = false)
    (hc : CPUMemoryPool.getFreeSize m.cpu_pool_ = some cpu_free)
    (hg : GPUMemoryPool.getFreeSize m.gpu_pool_ = some gpu_free) :
    ((gpu_free ≥ size ∧ gpu_free > cpu_free) →
      UnifiedMemoryManager.allocate m size DeviceType.AUTO tag mallocRet cudaRet now =
        (GPUMemoryPool.allocate m.gpu_pool_ size DeviceType.GPU tag cudaRet now).map
          (fun r => (r.1, { m with gpu_pool_ := r.2 }))) ∧
    (¬ (gpu_free ≥ size ∧ gpu_free > cpu_free) →
      UnifiedMemoryManager.allocate m size DeviceType.AUTO tag mallocRet cudaRet now =
        (CPUMemoryPool.allocate m.cpu_pool_ size DeviceType.CPU tag mallocRet now).map
          (fun r => (r.1, { m with cpu_pool_ := r.2 }))) := by
  constructor
  · intro hcond
    simp [UnifiedMemoryManager.allocate, UnifiedMemoryManager.managerGuard, hm, hc, hg, hcond]
  · intro hcond
    simp only [UnifiedMemoryManager.allocate, UnifiedMemoryManager.managerGuard, hm, hc, hg]
    simp [hcond]

/-- C6 at the two inputs of the specification: with Host free 100 MiB and Accelerator
free 200 MiB a request of 50 MiB goes to the Accelerator pool; with Accelerator free
80 MiB the same request goes to the Host pool. -/
theorem C6_auto_placement_witness :
    CPUMemoryPool.getFreeSize managerGpuRoomier.cpu_pool_ = some 104857600 ∧
    GPUMemoryPool.getFreeSize managerGpuRoomier.gpu_pool_ = some 209715200 ∧
    UnifiedMemoryManager.allocate managerGpuRoomier 52428800 DeviceType.AUTO "" 2 501 1 =
      (GPUMemoryPool.allocate managerGpuRoomier.gpu_pool_ 52428800 DeviceType.GPU "" 501 1).map
        (fun r => (r.1, { managerGpuRoomier with gpu_pool_ := r.2 })) ∧
    CPUMemoryPool.getFreeSize managerCpuRoomier.cpu_pool_ = some 104857600 ∧
    GPUMemoryPool.getFreeSize managerCpuRoomier.gpu_pool_ = some 83886080 ∧
    UnifiedMemoryManager.allocate managerCpuRoomier 52428800 DeviceType.AUTO "" 2 501 1 =
      (CPUMemoryPool.allocate managerCpuRoomier.cpu_pool_ 52428800 DeviceType.CPU "" 2 1).map
        (fun r => (r.1, { managerCpuRoomier with cpu_pool_ := r.2 })) :=
  ⟨rfl, rfl,
   (C6_auto_placement managerGpuRoomier 52428800 "" 2 501 1 104857600 209715200
      rfl rfl rfl).1 (by decide),
   rfl, rfl,
   (C6_auto_placement managerCpuRoomier 52428800 "" 2 501 1 104857600 83886080
      rfl rfl rfl).2 (by decide)⟩

/-- C8.  `UnifiedMemoryManager::copy(dst, src, size, dst_device, src_device)` follows the
two-by-two table.  Host to Host: it returns true and the memory afterwards is the
`memcpy` image, whose `size` bytes at `dst` are the bytes that were at `src`, every other
byte unchanged.  Host to Accelerator: `copyHostToDevice(src, dst, size)`, that is one
`cudaMemcpy(dst, src, size, cudaMemcpyHostToDevice)`.  Accelerator to Host:
`copyDeviceToHost(src, dst, size)`.  Accelerator to Accelerator:
`copyDeviceToDevice(src, dst, size)`.  If either device is `AUTO` it returns false with
the memory untouched, whatever the CUDA runtime would do. -/
theorem C8_copy_routing (rt : CudaRuntime) (m : UnifiedMemoryManager) (mem : Memory)
    (dst src size : Nat) (hm : m.mutex_ = false) :
    (UnifiedMemoryManager.copy rt m mem dst src size DeviceType.CPU DeviceType.CPU =
        some (true, memcpy mem dst src size) ∧
      (∀ i, i < size → memcpy mem dst src size (dst + i) = mem (src + i)) ∧
      (∀ a, a < dst ∨ dst + size ≤ a → memcpy mem dst src size a = mem a)) ∧
    (UnifiedMemoryManager.copy rt m mem dst src size DeviceType.GPU DeviceType.CPU =
        some (GPUMemoryPool.copyHostToDevice rt mem src dst size) ∧
      GPUMemoryPool.copyHostToDevice rt mem src dst size =
        rt.cudaMemcpy mem dst src size cudaMemcpyKind.cudaMemcpyHostToDevice) ∧
    (UnifiedMemoryManager.copy rt m mem dst src size DeviceType.CPU DeviceType.GPU =
        some (GPUMemoryPool.copyDeviceToHost rt mem src dst size) ∧
      GPUMemoryPool.copyDeviceToHost rt mem src dst size =
        rt.cudaMemcpy mem dst src size cudaMemcpyKind.cudaMemcpyDeviceToHost) ∧
    (UnifiedMemoryManager.copy rt m mem dst src size DeviceType.GPU DeviceType.GPU =
        some (GPUMemoryPool.copyDeviceToDevice rt mem src dst size) ∧
      GPUMemoryPool.copyDeviceToDevice rt mem src dst size =
        rt.cudaMemcpy mem dst src size cudaMemcpyKind.cudaMemcpyDeviceToDevice) ∧
    (∀ d : DeviceType,
      UnifiedMemoryManager.copy rt m mem dst src size DeviceType.AUTO d = some (false, mem) ∧
      UnifiedMemoryManager.copy rt m mem dst src size d DeviceType.AUTO = some (false, mem)) := by
  refine ⟨⟨?_, ?_, ?_⟩, ⟨?_, rfl⟩, ⟨?_, rfl⟩, ⟨?_, rfl⟩, ?_⟩
  · simp [UnifiedMemoryManager.copy, UnifiedMemoryManager.managerGuard, hm]
  · intro i hi
    simp [memcpy, hi]
  · intro a ha
    have : ¬ (dst ≤ a ∧ a < dst + size) := by omega
    simp [memcpy, this]
  · simp [UnifiedMemoryManager.copy, UnifiedMemoryManager.managerGuard, hm]
  · simp [UnifiedMemoryManager.copy, UnifiedMemoryManager.managerGuard, hm]
  · simp [UnifiedMemoryManager.copy, UnifiedMemoryManager.managerGuard, hm]
  · intro d
    cases d <;> simp [UnifiedMemoryManager.copy, UnifiedMemoryManager.managerGuard, hm]

/-- C8 at a concrete input: eight bytes from address 100 to address 200. -/
theorem C8_copy_routing_witness :
    (UnifiedMemoryManager.copy sampleRuntime managerGpuLive sampleMemory 200 100 8
        DeviceType.CPU DeviceType.CPU = some (true, memcpy sampleMemory 200 100 8) ∧
      (∀ i, i < 8 → memcpy sampleMemory 200 100 8 (200 + i) = sampleMemory (100 + i)) ∧
      (∀ a, a < 200 ∨ 200 + 8 ≤ a → memcpy sampleMemory 200 100 8 a = sampleMemory a)) ∧
    (UnifiedMemoryManager.copy sampleRuntime managerGpuLive sampleMemory 200 100 8
        DeviceType.GPU DeviceType.CPU =
        some (GPUMemoryPool.copyHostToDevice sampleRuntime sampleMemory 100 200 8) ∧
      GPUMemoryPool.copyHostToDevice sampleRuntime sampleMemory 100 200 8 =
        sampleRuntime.cudaMemcpy sampleMemory 200 100 8
          cudaMemcpyKind.cudaMemcpyHostToDevice) ∧
    (UnifiedMemoryManager.copy sampleRuntime managerGpuLive sampleMemory 200 100 8
        DeviceType.CPU DeviceType.GPU =
        some (GPUMemoryPool.copyDeviceToHost sampleRuntime sampleMemory 100 200 8) ∧
      GPUMemoryPool.copyDeviceToHost sampleRuntime sampleMemory 100 200 8 =
        sampleRuntime.cudaMemcpy sampleMemory 200 100 8
          cudaMemcpyKind.cudaMemcpyDeviceToHost) ∧
    (UnifiedMemoryManager.copy sampleRuntime managerGpuLive sampleMemory 200 100 8
        DeviceType.GPU DeviceType.GPU =
        some (GPUMemoryPool.copyDeviceToDevice sampleRuntime sampleMemory 100 200 8) ∧
      GPUMemoryPool.copyDeviceToDevice sampleRuntime sampleMemory 100 200 8 =
        sampleRuntime.cudaMemcpy sampleMemory 200 100 8
          cudaMemcpyKind.cudaMemcpyDeviceToDevice) ∧
    (∀ d : DeviceType,
      UnifiedMemoryManager.copy sampleRuntime managerGpuLive sampleMemory 200 100 8
        DeviceType.AUTO d = some (false, sampleMemory) ∧
      UnifiedMemoryManager.copy sampleRuntime managerGpuLive sampleMemory 200 100 8
        d DeviceType.AUTO = some (false, sampleMemory)) :=
  C8_copy_routing sampleRuntime managerGpuLive sampleMemory 200 100 8 rfl

/-! ## C9 and C10: `reallocate` -/

/-- C9 (code defect).  Let `h` be a live handle whose record has size `s`, and
`0 < new_size ≤ s`.  If the record is the newest of the pool, `reallocate(h, new_size)`
returns `h` itself and leaves the whole pool state (block records, live-handle map,
statistics) and the memory contents unchanged, on the Host and on the Accelerator pool.
If a record has been pushed since, the call reads `block.size` through the stored
`MemoryBlock*`, which that `push_back` has invalidated: the comparison
`new_size <= block.size` has no defined outcome and neither has the call. -/
theorem C9_reallocate_no_shrink_newest_record_only (rt : CudaRuntime) (p : MemoryPool)
    (mem : Memory) (h new_size i mallocRet cudaRet now : Nat) (b : MemoryBlock)
    (hm : p.mutex_ = false) (hh : h ≠ 0)
    (hlive : mapFind p.allocated_blocks_ h = some i) (hb : p.blocks_[i]? = some b)
    (hpos : 0 < new_size) (hle : new_size ≤ b.size) :
    (i + 1 = p.blocks_.length →
      CPUMemoryPool.reallocate p mem h new_size mallocRet now = some ((h, mem), p) ∧
      GPUMemoryPool.reallocate rt p mem h new_size cudaRet now = some ((h, mem), p)) ∧
    (i + 1 ≠ p.blocks_.length →
      CPUMemoryPool.reallocate p mem h new_size mallocRet now = none ∧
      GPUMemoryPool.reallocate rt p mem h new_size cudaRet now = none) := by
  have hn : new_size ≠ 0 := by omega
  constructor
  · intro hnew
    constructor
    · unfold CPUMemoryPool.reallocate
      rw [if_neg hh, if_neg hn, lockGuard_free _ _ hm]
      simp only [hlive, derefBlock_newest _ _ hnew, hb, hle, ↓reduceIte, Option.map_some']
      rw [unlock_lock p hm]
    · unfold GPUMemoryPool.reallocate
      rw [if_neg hh, if_neg hn, lockGuard_free _ _ hm]
      simp only [hlive, derefBlock_newest _ _ hnew, hb, hle, ↓reduceIte, Option.map_some']
      rw [unlock_lock p hm]
  · intro hold
    constructor
    · unfold CPUMemoryPool.reallocate
      rw [if_neg hh, if_neg hn, lockGuard_free _ _ hm]
      simp only [hlive, derefBlock_older _ _ hold, Option.map_none']
    · unfold GPUMemoryPool.reallocate
      rw [if_neg hh, if_neg hn, lockGuard_free _ _ hm]
      simp only [hlive, derefBlock_older _ _ hold, Option.map_none']

/-- C9 at a concrete input.  On a fresh Host pool `allocate(64)` returns handle `1` and
`allocate(256)` returns handle `2`, which leaves `poolTwoLive`.  There
`reallocate(2, 100)` returns `2` with the pool unchanged, while `reallocate(1, 32)` goes
through the invalidated pointer of handle `1`. -/
theorem C9_reallocate_older_handle_witness :
    (∃ q, CPUMemoryPool.allocate freshPool 64 DeviceType.CPU "" 1 0 = some (1, q) ∧
      CPUMemoryPool.allocate q 256 DeviceType.CPU "" 2 1 = some (2, poolTwoLive)) ∧
    CPUMemoryPool.reallocate poolTwoLive sampleMemory 2 100 3 2 =
      some ((2, sampleMemory), poolTwoLive) ∧
    CPUMemoryPool.reallocate poolTwoLive sampleMemory 1 32 3 2 = none :=
  ⟨⟨_, rfl, rfl⟩,
   ((C9_reallocate_no_shrink_newest_record_only sampleRuntime poolTwoLive sampleMemory
      2 100 1 3 3 2 (MemoryBlock.new 2 256 DeviceType.CPU "" 1) rfl (by decide) rfl rfl
      (by decide) (by decide)).1 rfl).1,
   ((C9_reallocate_no_shrink_newest_record_only sampleRuntime poolTwoLive sampleMemory
      1 32 0 3 3 2 (MemoryBlock.new 1 64 DeviceType.CPU "" 0) rfl (by decide) rfl rfl
      (by decide) (by decide)).2 (by decide)).1⟩

/-- C10 (code defect).  For a live handle `h` whose record has size `s` and every
`new_size > s`, `reallocate(h, new_size)` takes the pool's mutex and then calls the
public `allocate`, which takes the same non-recursive mutex again: the call never
returns, on the Host and on the Accelerator pool, whatever the underlying allocator
would have answered.  No new handle is produced and nothing is copied or released.  (For a
record that is no longer the newest the read of `block.size` before that is already
undefined.) -/
theorem C10_reallocate_growth_never_returns (rt : CudaRuntime) (p : MemoryPool)
    (mem : Memory) (h new_size i mallocRet cudaRet now : Nat) (b : MemoryBlock)
    (hm : p.mutex_ = false) (hh : h ≠ 0)
    (hlive : mapFind p.allocated_blocks_ h = some i) (hb : p.blocks_[i]? = some b)
    (hgt : b.size < new_size) :
    CPUMemoryPool.reallocate p mem h new_size mallocRet now = none ∧
    GPUMemoryPool.reallocate rt p mem h new_size cudaRet now = none := by
  have hn : new_size ≠ 0 := by omega
  have hle : ¬ new_size ≤ b.size := by omega
  have hc : CPUMemoryPool.allocate { p with mutex_ := true } new_size DeviceType.CPU b.tag
      mallocRet now = none := by
    unfold CPUMemoryPool.allocate
    rw [if_neg (by simp), lockGuard_held _ _ rfl]
  have hg : GPUMemoryPool.allocate { p with mutex_ := true } new_size DeviceType.GPU b.tag
      cudaRet now = none := by
    unfold GPUMemoryPool.allocate
    rw [if_neg (by simp), lockGuard_held _ _ rfl]
  by_cases hnew : i + 1 = p.blocks_.length
  · constructor
    · unfold CPUMemoryPool.reallocate
      rw [if_neg hh, if_neg hn, lockGuard_free _ _ hm]
      simp only [hlive, derefBlock_newest _ _ hnew, hb, hle, ↓reduceIte, hc,
        Option.map_none']
    · unfold GPUMemoryPool.reallocate
      rw [if_neg hh, if_neg hn, lockGuard_free _ _ hm]
      simp only [hlive, derefBlock_newest _ _ hnew, hb, hle, ↓reduceIte, hg,
        Option.map_none']
  · constructor
    · unfold CPUMemoryPool.reallocate
      rw [if_neg hh, if_neg hn, lockGuard_free _ _ hm]
      simp only [hlive, derefBlock_older _ _ hnew, Option.map_none']
    · unfold GPUMemoryPool.reallocate
      rw [if_neg hh, if_neg hn, lockGuard_free _ _ hm]
      simp only [hlive, derefBlock_older _ _ hnew, Option.map_none']

/-- C10 at the input of the specification: a 256-byte record and `new_size = 500`, with
an allocator ready to answer a fresh address. -/
theorem C10_reallocate_growth_witness :
    CPUMemoryPool.reallocate (poolWithRecord 1 256 DeviceType.CPU) sampleMemory 1 500 2 5 =
      none ∧
    GPUMemoryPool.reallocate sampleRuntime (poolWithRecord 1 256 DeviceType.GPU) sampleMemory
      1 500 2 5 = none :=
  ⟨(C10_reallocate_growth_never_returns sampleRuntime (poolWithRecord 1 256 DeviceType.CPU)
      sampleMemory 1 500 0 2 2 5 (MemoryBlock.new 1 256 DeviceType.CPU "" 0) rfl (by decide)
      rfl rfl (by decide)).1,
   (C10_reallocate_growth_never_returns sampleRuntime (poolWithRecord 1 256 DeviceType.GPU)
      sampleMemory 1 500 0 2 2 5 (MemoryBlock.new 1 256 DeviceType.GPU "" 0) rfl (by decide)
      rfl rfl (by decide)).2⟩

/-! ## C11 and C12: `reallocate` on absent handles and with a failing allocator -/

/-- While a caller holds the mutex, the public `allocate` of either pool does not return
for a device the pool serves. -/
theorem allocate_held (p : MemoryPool) (size : Nat) (tag : String) (ret now : Nat)
    (hm : p.mutex_ = true) :
    CPUMemoryPool.allocate p size DeviceType.CPU tag ret now = none ∧
    GPUMemoryPool.allocate p size DeviceType.GPU tag ret now = none := by
  constructor
  · unfold CPUMemoryPool.allocate
    rw [if_neg (by simp), lockGuard_held _ _ hm]
  · unfold GPUMemoryPool.allocate
    rw [if_neg (by simp), lockGuard_held _ _ hm]

/-- C11 refuted at a concrete input: address `5` is not live in a fresh Host pool;
`reallocate(5, 4096)` returns no handle and leaves the pool as it was, whereas
`allocate(4096)` returns handle `1` and changes the pool. -/
theorem C11_absent_handle_is_refused :
    mapFind freshPool.allocated_blocks_ 5 = none ∧
    CPUMemoryPool.reallocate freshPool sampleMemory 5 4096 1 0 =
      some ((0, sampleMemory), freshPool) ∧
    ∃ p1, CPUMemoryPool.allocate freshPool 4096 DeviceType.CPU "" 1 0 = some (1, p1) ∧
      p1 ≠ freshPool :=
  ⟨rfl, rfl, _, rfl, by decide⟩

/-- C11 (amended).  For a null handle, `reallocate(nullptr, new_size)` is
`allocate(new_size)` on the pool's own device with an empty tag: same returned handle,
same pool afterwards, memory untouched.  For a non-null handle that is not live in the
pool and `new_size > 0`, `reallocate` returns no handle and leaves the pool unchanged.
Both hold on the Host and on the Accelerator pool. -/
theorem C11_reallocate_null_allocates_absent_refused (rt : CudaRuntime) (p : MemoryPool)
    (mem : Memory) (h new_size ret now : Nat) (hm : p.mutex_ = false)
    (hpos : 0 < new_size) :
    CPUMemoryPool.reallocate p mem 0 new_size ret now =
      (CPUMemoryPool.allocate p new_size DeviceType.CPU "" ret now).map
        (fun r => ((r.1, mem), r.2)) ∧
    GPUMemoryPool.reallocate rt p mem 0 new_size ret now =
      (GPUMemoryPool.allocate p new_size DeviceType.GPU "" ret now).map
        (fun r => ((r.1, mem), r.2)) ∧
    (h ≠ 0 → mapFind p.allocated_blocks_ h = none →
      CPUMemoryPool.reallocate p mem h new_size ret now = some ((0, mem), p) ∧
      GPUMemoryPool.reallocate rt p mem h new_size ret now = some ((0, mem), p)) := by
  have hn : new_size ≠ 0 := by omega
  refine ⟨by simp [CPUMemoryPool.reallocate], by simp [GPUMemoryPool.reallocate], ?_⟩
  intro hh habs
  constructor
  · unfold CPUMemoryPool.reallocate
    rw [if_neg hh, if_neg hn, lockGuard_free _ _ hm]
    simp only [habs, Option.map_some']
    rw [unlock_lock p hm]
  · unfold GPUMemoryPool.reallocate
    rw [if_neg hh, if_neg hn, lockGuard_free _ _ hm]
    simp only [habs, Option.map_some']
    rw [unlock_lock p hm]

/-- C11 (amended) at a concrete input: a fresh pool, the null handle and the absent
address `5`, `new_size = 4096`. -/
theorem C11_reallocate_null_or_absent_witness :
    CPUMemoryPool.reallocate freshPool sampleMemory 0 4096 1 0 =
      (CPUMemoryPool.allocate freshPool 4096 DeviceType.CPU "" 1 0).map
        (fun r => ((r.1, sampleMemory), r.2)) ∧
    GPUMemoryPool.reallocate sampleRuntime freshPool sampleMemory 0 4096 1 0 =
      (GPUMemoryPool.allocate freshPool 4096 DeviceType.GPU "" 1 0).map
        (fun r => ((r.1, sampleMemory), r.2)) ∧
    (5 ≠ 0 → mapFind freshPool.allocated_blocks_ 5 = none →
      CPUMemoryPool.reallocate freshPool sampleMemory 5 4096 1 0 =
        some ((0, sampleMemory), freshPool) ∧
      GPUMemoryPool.reallocate sampleRuntime freshPool sampleMemory 5 4096 1 0 =
        some ((0, sampleMemory), freshPool)) :=
  C11_reallocate_null_allocates_absent_refused sampleRuntime freshPool sampleMemory 5 4096 1 0
    rfl (by decide)

/-- C12 (code defect).  Take a live handle `h` whose record has size `s`, a
`new_size > s` that no free record satisfies, and an allocator that answers null.  Called
on its own, the replacement `allocate(new_size)` returns no handle and leaves the pool
unchanged; but `reallocate(h, new_size)` calls it while holding the pool's non-recursive
mutex, so `reallocate` does not return at all: the caller never gets the "no handle"
answer.  (For a record that is no longer the newest the read of `block.size` before that is
already undefined.) -/
theorem C12_reallocate_failure_never_returns (p : MemoryPool) (mem : Memory)
    (h new_size i now : Nat) (b : MemoryBlock)
    (hm : p.mutex_ = false) (hh : h ≠ 0)
    (hlive : mapFind p.allocated_blocks_ h = some i) (hb : p.blocks_[i]? = some b)
    (hgt : b.size < new_size)
    (hs : CPUMemoryPool.allocateStrategy p new_size DeviceType.CPU = 0) :
    CPUMemoryPool.allocate p new_size DeviceType.CPU b.tag 0 now = some (0, p) ∧
    CPUMemoryPool.reallocate p mem h new_size 0 now = none := by
  have hn : new_size ≠ 0 := by omega
  have hle : ¬ new_size ≤ b.size := by omega
  constructor
  · rw [CPU_allocate_eq p new_size DeviceType.CPU b.tag 0 now hm]
    simp [hs, CPUMemoryPool.isDeviceSupported]
  · unfold CPUMemoryPool.reallocate
    rw [if_neg hh, if_neg hn, lockGuard_free _ _ hm]
    by_cases hnew : i + 1 = p.blocks_.length
    · simp only [hlive, derefBlock_newest _ _ hnew, hb, hle, ↓reduceIte,
        (allocate_held { p with mutex_ := true } new_size b.tag 0 now rfl).1,
        Option.map_none']
    · simp only [hlive, derefBlock_older _ _ hnew, Option.map_none']

/-- C12 at a concrete input: a 256-byte record, `new_size = 500`, `malloc` answering
null. -/
theorem C12_reallocate_failure_witness :
    CPUMemoryPool.allocate (poolWithRecord 1 256 DeviceType.CPU) 500 DeviceType.CPU
      (MemoryBlock.new 1 256 DeviceType.CPU "" 0).tag 0 5 =
      some (0, poolWithRecord 1 256 DeviceType.CPU) ∧
    CPUMemoryPool.reallocate (poolWithRecord 1 256 DeviceType.CPU) sampleMemory 1 500 0 5 =
      none :=
  C12_reallocate_failure_never_returns (poolWithRecord 1 256 DeviceType.CPU) sampleMemory
    1 500 0 5 (MemoryBlock.new 1 256 DeviceType.CPU "" 0) rfl (by decide) rfl rfl
    (by decide) rfl

theorem sumFree_eq_sumSizes (l : List MemoryBlock) (h : ∀ b ∈ l, b.isLocked = false) :
    sumFree l = sumSizes l := by
  have key : ∀ (l : List MemoryBlock), (∀ b ∈ l, b.isLocked = false) → ∀ acc : Nat,
      l.foldl (fun acc b => if !b.isLocked then sizeAdd acc b.size else acc) acc =
      l.foldl (fun acc b => sizeAdd acc b.size) acc := by
    intro l
    induction l with
    | nil => intro _ acc; rfl
    | cons a l ih =>
      intro hl acc
      have ha : a.isLocked = false := hl a (List.mem_cons_self _ _)
      simp only [List.foldl, ha, Bool.not_false, ↓reduceIte]
      exact ih (fun b hb => hl b (List.mem_cons_of_mem _ hb)) _
  exact key l h 0

theorem sumUsed_eq_zero (l : List MemoryBlock) (h : ∀ b ∈ l, b.isLocked = false) :
    sumUsed l = 0 := by
  have key : ∀ (l : List MemoryBlock), (∀ b ∈ l, b.isLocked = false) → ∀ acc : Nat,
      l.foldl (fun acc b => if b.isLocked then sizeAdd acc b.size else acc) acc = acc := by
    intro l
    induction l with
    | nil => intro _ acc; rfl
    | cons a l ih =>
      intro hl acc
      have ha : a.isLocked = false := hl a (List.mem_cons_self _ _)
      simp only [List.foldl, ha, Bool.false_eq_true, ↓reduceIte]
      exact ih (fun b hb => hl b (List.mem_cons_of_mem _ hb)) _
  exact key l h 0

theorem noneLocked_new (config : MemoryPoolConfig) : (MemoryPool.new config).noneLocked := by
  intro b hb
  simp [MemoryPool.new] at hb

theorem noneLocked_allocate (p p1 : MemoryPool) (size : Nat) (device : DeviceType)
    (tag : String) (mallocRet now h : Nat) (hm : p.mutex_ = false) (hl : p.noneLocked)
    (ha : CPUMemoryPool.allocate p size device tag mallocRet now = some (h, p1)) :
    p1.noneLocked := by
  rw [CPU_allocate_eq p size device tag mallocRet now hm] at ha
  have key : ∀ (x : Nat) (st : MemoryStatistics) (ab : List (Nat × Nat)),
      ({ p with blocks_ := p.blocks_ ++ [MemoryBlock.new x size device tag now],
                allocated_blocks_ := ab, stats_ := st } : MemoryPool).noneLocked := by
    intro x st ab b hb
    simp only [List.mem_append, List.mem_singleton] at hb
    rcases hb with hb | rfl
    · exact hl b hb
    · rfl
  split at ha
  · simp only [Option.some.injEq, Prod.mk.injEq] at ha
    exact ha.2 ▸ hl
  · split at ha
    · simp only [Option.some.injEq, Prod.mk.injEq] at ha
      exact ha.2 ▸ key _ _ _
    · split at ha
      · simp only [Option.some.injEq, Prod.mk.injEq] at ha
        exact ha.2 ▸ key _ _ _
      · simp only [Option.some.injEq, Prod.mk.injEq] at ha
        exact ha.2 ▸ hl

theorem noneLocked_deallocate (p q : MemoryPool) (ptr now : Nat) (hm : p.mutex_ = false)
    (hl : p.noneLocked) (hd : CPUMemoryPool.deallocate p ptr now = some q) :
    q.noneLocked := by
  by_cases hp : ptr = 0
  · subst hp
    rw [deallocate_null] at hd
    exact Option.some.inj hd ▸ hl
  · cases ha : mapFind p.allocated_blocks_ ptr with
    | none =>
      rw [deallocate_absent p ptr now hm ha] at hd
      exact Option.some.inj hd ▸ hl
    | some i =>
      by_cases hnew : i + 1 = p.blocks_.length
      · have hi : i < p.blocks_.length := by omega
        rw [deallocate_live p ptr now i _ hm hp ha hnew (List.getElem?_eq_getElem hi)] at hd
        have hq := Option.some.inj hd
        subst hq
        intro c hc
        rcases List.mem_or_eq_of_mem_set hc with hc | rfl
        · exact hl c hc
        · unfold freeBlock
          split <;> rfl
      · rw [deallocate_older p ptr now i hm hp ha hnew] at hd
        cases hd

/-- Along every run of `allocate` and `deallocate` calls on a Host pool that starts
unlocked and without a record flagged `isLocked`, the pool after each call is unlocked and
without such a record. -/
theorem performAll_invariant (calls : List PoolCall) :
    ∀ p : MemoryPool, p.mutex_ = false → p.noneLocked →
      ∀ trace, CPUMemoryPool.performAll p calls = some trace →
        ∀ r ∈ trace, r.2.mutex_ = false ∧ r.2.noneLocked := by
  induction calls with
  | nil =>
    intro p _ _ trace ht
    simp only [CPUMemoryPool.performAll, Option.some.injEq] at ht
    subst ht
    simp
  | cons c cs ih =>
    intro p hm hl trace ht
    cases hr : CPUMemoryPool.perform p c with
    | none => simp [CPUMemoryPool.performAll, hr] at ht
    | some r =>
      cases hrs : CPUMemoryPool.performAll r.2 cs with
      | none => simp [CPUMemoryPool.performAll, hr, hrs] at ht
      | some rs =>
        simp only [CPUMemoryPool.performAll, hr, hrs, Option.some.injEq] at ht
        subst ht
        have hrm := (perform_returns p c r hm hr).1
        have hrl : r.2.noneLocked := by
          cases c with
          | allocate size device tag mallocRet now =>
            cases ha : CPUMemoryPool.allocate p size device tag mallocRet now with
            | none => simp [CPUMemoryPool.perform, ha] at hr
            | some x =>
              simp only [CPUMemoryPool.perform, ha, Option.map_some',
                Option.some.injEq] at hr
              subst hr
              exact noneLocked_allocate p x.2 size device tag mallocRet now x.1 hm hl ha
          | deallocate ptr now =>
            cases hd : CPUMemoryPool.deallocate p ptr now with
            | none => simp [CPUMemoryPool.perform, hd] at hr
            | some q =>
              simp only [CPUMemoryPool.perform, hd, Option.map_some',
                Option.some.injEq] at hr
              subst hr
              exact noneLocked_deallocate p q ptr now hm hl hd
        intro x hx
        rcases List.mem_cons.mp hx with rfl | hx
        · exact ⟨hrm, hrl⟩
        · exact ih r.2 hrm hrl rs hrs x hx

/-! ## C13: free-size identity -/

/-- C13 (code defect).  In every state reached from a new Host pool by `allocate` and
`deallocate` calls no record is flagged `isLocked`, so `getFreeSize()` equals
`getTotalSize()` and `getUsedSize()` is 0, whatever `total_allocated` is.  After a single
`allocate(4096)` on a fresh pool `getFreeSize()` is 4096 while
`getTotalSize() - total_allocated` is `4096 - 8192`, which wraps to `2 ^ 64 - 4096`. -/
theorem C13_free_size_equals_total_size (config : MemoryPoolConfig) (calls : List PoolCall) :
    (∀ trace, CPUMemoryPool.performAll (MemoryPool.new config) calls = some trace →
      ∀ r ∈ trace, ∃ n, CPUMemoryPool.getFreeSize r.2 = some n ∧
        CPUMemoryPool.getTotalSize r.2 = some n ∧ CPUMemoryPool.getUsedSize r.2 = some 0) ∧
    (CPUMemoryPool.allocate freshPool 4096 DeviceType.CPU "" 1 7 = some (1, poolOneLive) ∧
      CPUMemoryPool.getFreeSize poolOneLive = some 4096 ∧
      CPUMemoryPool.getTotalSize poolOneLive = some 4096 ∧
      poolOneLive.stats_.total_allocated = 8192 ∧
      sizeSub 4096 poolOneLive.stats_.total_allocated = 18446744073709547520 ∧
      sizeSub 4096 poolOneLive.stats_.total_allocated ≠ 4096) := by
  refine ⟨?_, rfl, rfl, rfl, rfl, by decide, by decide⟩
  intro trace ht r hr
  obtain ⟨hm, hl⟩ := performAll_invariant calls (MemoryPool.new config) rfl
    (noneLocked_new config) trace ht r hr
  refine ⟨sumFree r.2.blocks_, getFreeSize_free r.2 hm, ?_, ?_⟩
  · simp [CPUMemoryPool.getTotalSize, lockGuard_free _ _ hm, sumFree_eq_sumSizes _ hl]
  · simp [CPUMemoryPool.getUsedSize, lockGuard_free _ _ hm, sumUsed_eq_zero _ hl]

/-- C13 at a concrete run: after `allocate(4096)` and after the release of the returned
handle on a fresh pool, `getFreeSize()` equals `getTotalSize()` and `getUsedSize()` is 0. -/
theorem C13_free_size_witness :
    ∃ trace, CPUMemoryPool.performAll (MemoryPool.new cfg1MiB)
        [PoolCall.allocate 4096 DeviceType.CPU "" 1 7, PoolCall.deallocate 1 8] = some trace ∧
      ∀ r ∈ trace, ∃ n, CPUMemoryPool.getFreeSize r.2 = some n ∧
        CPUMemoryPool.getTotalSize r.2 = some n ∧ CPUMemoryPool.getUsedSize r.2 = some 0 :=
  ⟨_, rfl, (C13_free_size_equals_total_size cfg1MiB
    [PoolCall.allocate 4096 DeviceType.CPU "" 1 7, PoolCall.deallocate 1 8]).1 _ rfl⟩

/-! ## C14 and C15: the best-fit and worst-fit strategies -/

/-- Running best-fit over `l` starting from a running selection that is correct for the
records `pre` already seen gives a selection that is correct for `pre ++ l`: no selection
only if no record seen satisfies the request; otherwise the selected record occurs in the
list, satisfies the request, is strictly smaller than every satisfying record before it
and at most as large as every satisfying record after it. -/
theorem bestFit_fold (requested : Nat) (l : List MemoryBlock) :
    ∀ (pre : List MemoryBlock) (acc : Option MemoryBlock),
      (acc = none → ∀ c ∈ pre, c.size < requested) →
      (∀ b, acc = some b → ∃ s t, pre = s ++ b :: t ∧ requested ≤ b.size ∧
        (∀ c ∈ s, requested ≤ c.size → b.size < c.size) ∧
        (∀ c ∈ t, requested ≤ c.size → b.size ≤ c.size)) →
      ((l.foldl (fun best b =>
          if requested ≤ b.size then
            match best with
            | none => some b
            | some c => if b.size < c.size then some b else some c
          else best) acc = none → ∀ c ∈ pre ++ l, c.size < requested) ∧
       (∀ b, l.foldl (fun best b =>
          if requested ≤ b.size then
            match best with
            | none => some b
            | some c => if b.size < c.size then some b else some c
          else best) acc = some b → ∃ s t, pre ++ l = s ++ b :: t ∧ requested ≤ b.size ∧
        (∀ c ∈ s, requested ≤ c.size → b.size < c.size) ∧
        (∀ c ∈ t, requested ≤ c.size → b.size ≤ c.size))) := by
  induction l with
  | nil =>
    intro pre acc h1 h2
    simpa using ⟨h1, h2⟩
  | cons x l ih =>
    intro pre acc h1 h2
    have hpre : pre ++ x :: l = (pre ++ [x]) ++ l := by simp
    rw [hpre]
    simp only [List.foldl]
    apply ih
    · intro hnone c hc
      by_cases hx : requested ≤ x.size
      · rw [if_pos hx] at hnone
        cases acc with
        | none => simp at hnone
        | some a =>
          simp only at hnone
          split at hnone <;> simp at hnone
      · rw [if_neg hx] at hnone
        rcases List.mem_append.mp hc with hc | hc
        · exact h1 hnone c hc
        · rw [List.mem_singleton.mp hc]
          omega
    · intro b hb
      by_cases hx : requested ≤ x.size
      · rw [if_pos hx] at hb
        cases acc with
        | none =>
          simp only [Option.some.injEq] at hb
          subst hb
          refine ⟨pre, [], rfl, hx, ?_, by simp⟩
          intro c hc hreq
          have := h1 rfl c hc
          omega
        | some a =>
          obtain ⟨s, t, hst, hra, hs, ht⟩ := h2 a rfl
          simp only at hb
          by_cases hlt : x.size < a.size
          · rw [if_pos hlt] at hb
            simp only [Option.some.injEq] at hb
            subst hb
            refine ⟨pre, [], rfl, hx, ?_, by simp⟩
            intro c hc hreq
            rw [hst] at hc
            rcases List.mem_append.mp hc with hc | hc
            · have := hs c hc hreq
              omega
            · rcases List.mem_cons.mp hc with rfl | hc
              · exact hlt
              · have := ht c hc hreq
                omega
          · rw [if_neg hlt] at hb
            simp only [Option.some.injEq] at hb
            subst hb
            refine ⟨s, t ++ [x], by simp [hst], hra, hs, ?_⟩
            intro c hc hreq
            rcases List.mem_append.mp hc with hc | hc
            · exact ht c hc hreq
            · rw [List.mem_singleton.mp hc]
              omega
      · rw [if_neg hx] at hb
        obtain ⟨s, t, hst, hra, hs, ht⟩ := h2 b hb
        refine ⟨s, t ++ [x], by simp [hst], hra, hs, ?_⟩
        intro c hc hreq
        rcases List.mem_append.mp hc with hc | hc
        · exact ht c hc hreq
        · rw [List.mem_singleton.mp hc] at hreq
          exact absurd hreq hx

/-- The worst-fit counterpart of `bestFit_fold`: the selected record is strictly larger
than every satisfying record before it and at least as large as every satisfying record
after it. -/
theorem worstFit_fold (requested : Nat) (l : List MemoryBlock) :
    ∀ (pre : List MemoryBlock) (acc : Option MemoryBlock),
      (acc = none → ∀ c ∈ pre, c.size < requested) →
      (∀ b, acc = some b → ∃ s t, pre = s ++ b :: t ∧ requested ≤ b.size ∧
        (∀ c ∈ s, requested ≤ c.size → c.size < b.size) ∧
        (∀ c ∈ t, requested ≤ c.size → c.size ≤ b.size)) →
      ((l.foldl (fun best b =>
          if requested ≤ b.size then
            match best with
            | none => some b
            | some c => if c.size < b.size then some b else some c
          else best) acc = none → ∀ c ∈ pre ++ l, c.size < requested) ∧
       (∀ b, l.foldl (fun best b =>
          if requested ≤ b.size then
            match best with
            | none => some b
            | some c => if c.size < b.size then some b else some c
          else best) acc = some b → ∃ s t, pre ++ l = s ++ b :: t ∧ requested ≤ b.size ∧
        (∀ c ∈ s, requested ≤ c.size → c.size < b.size) ∧
        (∀ c ∈ t, requested ≤ c.size → c.size ≤ b.size))) := by
  induction l with
  | nil =>
    intro pre acc h1 h2
    simpa using ⟨h1, h2⟩
  | cons x l ih =>
    intro pre acc h1 h2
    have hpre : pre ++ x :: l = (pre ++ [x]) ++ l := by simp
    rw [hpre]
    simp only [List.foldl]
    apply ih
    · intro hnone c hc
      by_cases hx : requested ≤ x.size
      · rw [if_pos hx] at hnone
        cases acc with
        | none => simp at hnone
        | some a =>
          simp only at hnone
          split at hnone <;> simp at hnone
      · rw [if_neg hx] at hnone
        rcases List.mem_append.mp hc with hc | hc
        · exact h1 hnone c hc
        · rw [List.mem_singleton.mp hc]
          omega
    · intro b hb
      by_cases hx : requested ≤ x.size
      · rw [if_pos hx] at hb
        cases acc with
        | none =>
          simp only [Option.some.injEq] at hb
          subst hb
          refine ⟨pre, [], rfl, hx, ?_, by simp⟩
          intro c hc hreq
          have := h1 rfl c hc
          omega
        | some a =>
          obtain ⟨s, t, hst, hra, hs, ht⟩ := h2 a rfl
          simp only at hb
          by_cases hlt : a.size < x.size
          · rw [if_pos hlt] at hb
            simp only [Option.some.injEq] at hb
            subst hb
            refine ⟨pre, [], rfl, hx, ?_, by simp⟩
            intro c hc hreq
            rw [hst] at hc
            rcases List.mem_append.mp hc with hc | hc
            · have := hs c hc hreq
              omega
            · rcases List.mem_cons.mp hc with rfl | hc
              · exact hlt
              · have := ht c hc hreq
                omega
          · rw [if_neg hlt] at hb
            simp only [Option.some.injEq] at hb
            subst hb
            refine ⟨s, t ++ [x], by simp [hst], hra, hs, ?_⟩
            intro c hc hreq
            rcases List.mem_append.mp hc with hc | hc
            · exact ht c hc hreq
            · rw [List.mem_singleton.mp hc]
              omega
      · rw [if_neg hx] at hb
        obtain ⟨s, t, hst, hra, hs, ht⟩ := h2 b hb
        refine ⟨s, t ++ [x], by simp [hst], hra, hs, ?_⟩
        intro c hc hreq
        rcases List.mem_append.mp hc with hc | hc
        · exact ht c hc hreq
        · rw [List.mem_singleton.mp hc] at hreq
          exact absurd hreq hx


theorem bestFit_spec (free : List MemoryBlock) (requested : Nat) :
    (bestFit free requested = none → ∀ c ∈ free, c.size < requested) ∧
    (∀ b, bestFit free requested = some b → ∃ s t, free = s ++ b :: t ∧ requested ≤ b.size ∧
      (∀ c ∈ s, requested ≤ c.size → b.size < c.size) ∧
      (∀ c ∈ t, requested ≤ c.size → b.size ≤ c.size)) := by
  have h := bestFit_fold requested free [] none (by simp) (by simp)
  simpa [bestFit] using h

theorem worstFit_spec (free : List MemoryBlock) (requested : Nat) :
    (worstFit free requested = none → ∀ c ∈ free, c.size < requested) ∧
    (∀ b, worstFit free requested = some b → ∃ s t, free = s ++ b :: t ∧ requested ≤ b.size ∧
      (∀ c ∈ s, requested ≤ c.size → c.size < b.size) ∧
      (∀ c ∈ t, requested ≤ c.size → c.size ≤ b.size)) := by
  have h := worstFit_fold requested free [] none (by simp) (by simp)
  simpa [worstFit] using h

/-- C14.  Under `BEST_FIT` the Host pool's `allocateStrategy` hands back the address of the
record that best-fit selects in the pool's free list, and so does the Accelerator pool's
`allocateStrategy` under every configuration.  For every free list and requested size,
best-fit reports no fit exactly when no free record has `size ≥ requested`; otherwise the
selected record is in the list, has `size ≥ requested`, is strictly smaller than every
satisfying record inserted before it and at most as large as every satisfying record
inserted after it (minimum size, earliest on ties).  With free records of sizes
256, 64, 128 and request 50 it selects the 64-byte record. -/
theorem C14_best_fit_selection (p : MemoryPool) (free : List MemoryBlock)
    (size : Nat) (device : DeviceType)
    (hcfg : p.config_.strategy = AllocationStrategy.BEST_FIT) :
    CPUMemoryPool.allocateStrategy p size device =
      selectedPtr (bestFit (freeList p.blocks_) size) ∧
    GPUMemoryPool.allocateStrategy p size device =
      selectedPtr (bestFit (freeList p.blocks_) size) ∧
    (bestFit free size = none ↔ ∀ c ∈ free, c.size < size) ∧
    (∀ b, bestFit free size = some b → ∃ s t, free = s ++ b :: t ∧ size ≤ b.size ∧
      (∀ c ∈ s, size ≤ c.size → b.size < c.size) ∧
      (∀ c ∈ t, size ≤ c.size → b.size ≤ c.size)) ∧
    bestFit sampleFreeList 50 = some (freeRecord 20 64) := by
  refine ⟨?_, rfl, ⟨(bestFit_spec free size).1, ?_⟩, (bestFit_spec free size).2, rfl⟩
  · simp [CPUMemoryPool.allocateStrategy, hcfg, allocateBestFit]
  · intro hall
    cases hb : bestFit free size with
    | none => rfl
    | some b =>
      obtain ⟨s, t, hst, hreq, -, -⟩ := (bestFit_spec free size).2 b hb
      have := hall b (by rw [hst]; simp)
      omega

/-- C14 at a concrete input: the pool whose free list holds records of sizes 256, 64 and
128, and a request of 50 bytes. -/
theorem C14_best_fit_witness :
    CPUMemoryPool.allocateStrategy (poolWithFreeList AllocationStrategy.BEST_FIT) 50
        DeviceType.CPU =
      selectedPtr (bestFit (freeList (poolWithFreeList AllocationStrategy.BEST_FIT).blocks_) 50) ∧
    GPUMemoryPool.allocateStrategy (poolWithFreeList AllocationStrategy.BEST_FIT) 50
        DeviceType.CPU =
      selectedPtr (bestFit (freeList (poolWithFreeList AllocationStrategy.BEST_FIT).blocks_) 50) ∧
    (bestFit sampleFreeList 50 = none ↔ ∀ c ∈ sampleFreeList, c.size < 50) ∧
    (∀ b, bestFit sampleFreeList 50 = some b → ∃ s t, sampleFreeList = s ++ b :: t ∧
      50 ≤ b.size ∧
      (∀ c ∈ s, 50 ≤ c.size → b.size < c.size) ∧
      (∀ c ∈ t, 50 ≤ c.size → b.size ≤ c.size)) ∧
    bestFit sampleFreeList 50 = some (freeRecord 20 64) :=
  C14_best_fit_selection (poolWithFreeList AllocationStrategy.BEST_FIT) sampleFreeList 50
    DeviceType.CPU rfl

/-- C15.  Under `WORST_FIT` the Host pool's `allocateStrategy` hands back the address of
the record that worst-fit selects in the pool's free list.  For every free list that
holds at least one record with `size ≥ requested`, worst-fit selects a record of the list
whose size is the maximum over all free records (the earliest inserted one on ties).
With free records of sizes 256, 64, 128 and request 50 it selects the 256-byte record. -/
theorem C15_worst_fit_selection (p : MemoryPool) (free : List MemoryBlock)
    (size : Nat) (device : DeviceType)
    (hcfg : p.config_.strategy = AllocationStrategy.WORST_FIT)
    (hfit : ∃ c ∈ free, size ≤ c.size) :
    CPUMemoryPool.allocateStrategy p size device =
      selectedPtr (worstFit (freeList p.blocks_) size) ∧
    (∃ b s t, worstFit free size = some b ∧ free = s ++ b :: t ∧
      (∀ c ∈ free, c.size ≤ b.size) ∧ (∀ c ∈ s, c.size < b.size)) ∧
    worstFit sampleFreeList 50 = some (freeRecord 10 256) := by
  refine ⟨?_, ?_, rfl⟩
  · simp [CPUMemoryPool.allocateStrategy, hcfg, allocateWorstFit]
  · obtain ⟨c0, hc0, hreq0⟩ := hfit
    cases hb : worstFit free size with
    | none =>
      have := (worstFit_spec free size).1 hb c0 hc0
      omega
    | some b =>
      obtain ⟨s, t, hst, hreq, hs, ht⟩ := (worstFit_spec free size).2 b hb
      refine ⟨b, s, t, rfl, hst, ?_, ?_⟩
      · intro c hc
        by_cases hcr : size ≤ c.size
        · rw [hst] at hc
          rcases List.mem_append.mp hc with hc | hc
          · exact Nat.le_of_lt (hs c hc hcr)
          · rcases List.mem_cons.mp hc with rfl | hc
            · exact le_refl _
            · exact ht c hc hcr
        · omega
      · intro c hc
        by_cases hcr : size ≤ c.size
        · exact hs c hc hcr
        · omega

/-- C15 at a concrete input: the same free list and request under worst-fit. -/
theorem C15_worst_fit_witness :
    CPUMemoryPool.allocateStrategy (poolWithFreeList AllocationStrategy.WORST_FIT) 50
        DeviceType.CPU =
      selectedPtr
        (worstFit (freeList (poolWithFreeList AllocationStrategy.WORST_FIT).blocks_) 50) ∧
    (∃ b s t, worstFit sampleFreeList 50 = some b ∧ sampleFreeList = s ++ b :: t ∧
      (∀ c ∈ sampleFreeList, c.size ≤ b.size) ∧ (∀ c ∈ s, c.size < b.size)) ∧
    worstFit sampleFreeList 50 = some (freeRecord 10 256) :=
  C15_worst_fit_selection (poolWithFreeList AllocationStrategy.WORST_FIT) sampleFreeList 50
    DeviceType.CPU rfl ⟨freeRecord 10 256, by simp [sampleFreeList], by decide⟩

/-! ## C16: device-support predicate -/

/-- C16.  `CPUMemoryPool::allocate` with device `GPU` and `GPUMemoryPool::allocate` with
device `CPU` return no handle and leave the whole pool state unchanged, for every pool,
size and tag (the test precedes the lock and the strategy).  The Host pool's
`isDeviceSupported` is true exactly for `CPU` and `AUTO`, the Accelerator pool's exactly
for `GPU` and `AUTO`. -/
theorem C16_device_support_predicate (p : MemoryPool) (size : Nat) (tag : String)
    (ret now : Nat) :
    CPUMemoryPool.allocate p size DeviceType.GPU tag ret now = some (0, p) ∧
    GPUMemoryPool.allocate p size DeviceType.CPU tag ret now = some (0, p) ∧
    (∀ d, CPUMemoryPool.isDeviceSupported d = true ↔ (d = DeviceType.CPU ∨ d = DeviceType.AUTO)) ∧
    (∀ d, GPUMemoryPool.isDeviceSupported d = true ↔ (d = DeviceType.GPU ∨ d = DeviceType.AUTO)) := by
  refine ⟨?_, ?_, ?_, ?_⟩
  · simp [CPUMemoryPool.allocate]
  · simp [GPUMemoryPool.allocate]
  · intro d
    cases d <;> simp [CPUMemoryPool.isDeviceSupported]
  · intro d
    cases d <;> simp [GPUMemoryPool.isDeviceSupported]

/-! ## C17: pinned records and `getFreeSize` -/

/-- Closed form of `deallocatePinned` on a live, pinned handle: `free(ptr)` is called, the
statistics are updated and the map entry erased; `blocks_` is left as it is. -/
theorem deallocatePinned_live (p : MemoryPool) (ptr i : Nat) (b : MemoryBlock)
    (hm : p.mutex_ = false) (hp : ptr ≠ 0)
    (ha : mapFind p.allocated_blocks_ ptr = some i) (hnew : i + 1 = p.blocks_.length)
    (hb : p.blocks_[i]? = some b) (hpin : b.isPinned = true) :
    CPUMemoryPool.deallocatePinned p ptr = some
      { p with
        freed := ptr :: p.freed,
        stats_ := { p.stats_ with
          total_allocated := sizeSub p.stats_.total_allocated b.size,
          deallocation_count := sizeAdd p.stats_.deallocation_count 1 },
        allocated_blocks_ := mapErase p.allocated_blocks_ ptr } := by
  unfold CPUMemoryPool.deallocatePinned
  rw [if_neg hp, lockGuard_free _ _ hm]
  simp only [deallocatePinnedLocked, ha, derefBlock_newest _ _ hnew, hb, hpin, ↓reduceIte,
    Option.map_some', Option.some.injEq]
  simp [hm]

/-- C17 (code defect).  On a Host pool reporting `F` free bytes, a successful
`allocatePinned(size)` appends a record flagged `isPinned` whose `isLocked` flag is clear,
so `getFreeSize()` counts it at once and reports `F + size` (modulo `2 ^ 64`);
`deallocatePinned` of the handle returns, leaves `blocks_` as it is, and `getFreeSize()`
still reports `F + size`. -/
theorem C17_pinned_record_is_counted_as_free (p : MemoryPool) (size : Nat) (tag : String)
    (mallocRet now F : Nat) (hm : p.mutex_ = false)
    (hF : CPUMemoryPool.getFreeSize p = some F) (hr : mallocRet ≠ 0) :
    (CPUMemoryPool.allocatePinned p size tag mallocRet now).1 = mallocRet ∧
    (CPUMemoryPool.allocatePinned p size tag mallocRet now).2.blocks_ = p.blocks_ ++
      [{ MemoryBlock.new mallocRet size DeviceType.CPU tag now with isPinned := true }] ∧
    CPUMemoryPool.getFreeSize (CPUMemoryPool.allocatePinned p size tag mallocRet now).2 =
      some (sizeAdd F size) ∧
    ∃ q, CPUMemoryPool.deallocatePinned
        (CPUMemoryPool.allocatePinned p size tag mallocRet now).2 mallocRet = some q ∧
      q.blocks_ = (CPUMemoryPool.allocatePinned p size tag mallocRet now).2.blocks_ ∧
      mapFind q.allocated_blocks_ mallocRet = none ∧
      CPUMemoryPool.getFreeSize q = some (sizeAdd F size) := by
  rw [getFreeSize_free p hm] at hF
  simp only [Option.some.injEq] at hF
  have hq : ∃ q, CPUMemoryPool.allocatePinned p size tag mallocRet now = (mallocRet, q) ∧
      q.mutex_ = false ∧
      q.blocks_ = p.blocks_ ++
        [{ MemoryBlock.new mallocRet size DeviceType.CPU tag now with isPinned := true }] ∧
      q.allocated_blocks_ = mapAssign p.allocated_blocks_ mallocRet p.blocks_.length := by
    refine ⟨(CPUMemoryPool.allocatePinned p size tag mallocRet now).2, ?_, ?_, ?_, ?_⟩ <;>
    simp [CPUMemoryPool.allocatePinned, hr, recordBlock, hm, MemoryBlock.new]
  obtain ⟨q, hq, hqm, hqb, hqa⟩ := hq
  rw [hq]
  dsimp only
  have hfree : ∀ q2 : MemoryPool, q2.mutex_ = false → q2.blocks_ = q.blocks_ →
      CPUMemoryPool.getFreeSize q2 = some (sizeAdd F size) := by
    intro q2 h2 hb2
    rw [getFreeSize_free q2 h2, hb2, hqb, sumFree_concat]
    simp [MemoryBlock.new, hF]
  refine ⟨rfl, hqb, hfree q hqm rfl, ?_⟩
  have hd := deallocatePinned_live q mallocRet p.blocks_.length
    { MemoryBlock.new mallocRet size DeviceType.CPU tag now with isPinned := true }
    hqm hr (by rw [hqa]; exact mapFind_mapAssign _ _ _) (by rw [hqb]; simp)
    (by rw [hqb]; exact getElem?_concat _ _) rfl
  exact ⟨_, hd, rfl, mapFind_mapErase _ _, hfree _ hqm rfl⟩

/-- C17 at a concrete input: `allocatePinned(4096)` on a fresh pool, then
`deallocatePinned` of the returned handle. -/
theorem C17_pinned_record_witness :
    (CPUMemoryPool.allocatePinned freshPool 4096 "" 1 0).1 = 1 ∧
    (CPUMemoryPool.allocatePinned freshPool 4096 "" 1 0).2.blocks_ = freshPool.blocks_ ++
      [{ MemoryBlock.new 1 4096 DeviceType.CPU "" 0 with isPinned := true }] ∧
    CPUMemoryPool.getFreeSize (CPUMemoryPool.allocatePinned freshPool 4096 "" 1 0).2 =
      some (sizeAdd 0 4096) ∧
    ∃ q, CPUMemoryPool.deallocatePinned
        (CPUMemoryPool.allocatePinned freshPool 4096 "" 1 0).2 1 = some q ∧
      q.blocks_ = (CPUMemoryPool.allocatePinned freshPool 4096 "" 1 0).2.blocks_ ∧
      mapFind q.allocated_blocks_ 1 = none ∧
      CPUMemoryPool.getFreeSize q = some (sizeAdd 0 4096) :=
  C17_pinned_record_is_counted_as_free freshPool 4096 "" 1 0 0 rfl rfl (by decide)

/-! ## C18: `updateConfig` and `getConfig` -/

/-- C18.  After `updateConfig(c, d)` with `d` one of `CPU`, `GPU`, `getConfig(d)` returns
`c`, `getConfig` of the other device returns what it returned before, and both pools are
exactly as they were; `updateConfig(c, AUTO)` changes nothing at all. -/
theorem C18_updateConfig_stores_only (m : UnifiedMemoryManager) (c : MemoryPoolConfig)
    (hm : m.mutex_ = false) :
    (∃ m1, UnifiedMemoryManager.updateConfig m c DeviceType.CPU = some m1 ∧
      UnifiedMemoryManager.getConfig m1 DeviceType.CPU = some c ∧
      UnifiedMemoryManager.getConfig m1 DeviceType.GPU =
        UnifiedMemoryManager.getConfig m DeviceType.GPU ∧
      m1.cpu_pool_ = m.cpu_pool_ ∧ m1.gpu_pool_ = m.gpu_pool_) ∧
    (∃ m1, UnifiedMemoryManager.updateConfig m c DeviceType.GPU = some m1 ∧
      UnifiedMemoryManager.getConfig m1 DeviceType.GPU = some c ∧
      UnifiedMemoryManager.getConfig m1 DeviceType.CPU =
        UnifiedMemoryManager.getConfig m DeviceType.CPU ∧
      m1.cpu_pool_ = m.cpu_pool_ ∧ m1.gpu_pool_ = m.gpu_pool_) ∧
    UnifiedMemoryManager.updateConfig m c DeviceType.AUTO = some m := by
  refine ⟨⟨{ m with cpu_config_ := c }, ?_, ?_, ?_, rfl, rfl⟩,
    ⟨{ m with gpu_config_ := c }, ?_, ?_, ?_, rfl, rfl⟩, ?_⟩ <;>
  simp [UnifiedMemoryManager.updateConfig, UnifiedMemoryManager.getConfig,
    UnifiedMemoryManager.managerGuard, hm]

/-- C18 at a concrete input: a newly constructed manager and the 1 MiB configuration. -/
theorem C18_updateConfig_witness :
    (∃ m1, UnifiedMemoryManager.updateConfig
        (UnifiedMemoryManager.new cfg1MiB cfg1MiB) cfg1MiB DeviceType.CPU = some m1 ∧
      UnifiedMemoryManager.getConfig m1 DeviceType.CPU = some cfg1MiB ∧
      UnifiedMemoryManager.getConfig m1 DeviceType.GPU =
        UnifiedMemoryManager.getConfig (UnifiedMemoryManager.new cfg1MiB cfg1MiB)
          DeviceType.GPU ∧
      m1.cpu_pool_ = (UnifiedMemoryManager.new cfg1MiB cfg1MiB).cpu_pool_ ∧
      m1.gpu_pool_ = (UnifiedMemoryManager.new cfg1MiB cfg1MiB).gpu_pool_) ∧
    (∃ m1, UnifiedMemoryManager.updateConfig
        (UnifiedMemoryManager.new cfg1MiB cfg1MiB) cfg1MiB DeviceType.GPU = some m1 ∧
      UnifiedMemoryManager.getConfig m1 DeviceType.GPU = some cfg1MiB ∧
      UnifiedMemoryManager.getConfig m1 DeviceType.CPU =
        UnifiedMemoryManager.getConfig (UnifiedMemoryManager.new cfg1MiB cfg1MiB)
          DeviceType.CPU ∧
      m1.cpu_pool_ = (UnifiedMemoryManager.new cfg1MiB cfg1MiB).cpu_pool_ ∧
      m1.gpu_pool_ = (UnifiedMemoryManager.new cfg1MiB cfg1MiB).gpu_pool_) ∧
    UnifiedMemoryManager.updateConfig (UnifiedMemoryManager.new cfg1MiB cfg1MiB) cfg1MiB
      DeviceType.AUTO = some (UnifiedMemoryManager.new cfg1MiB cfg1MiB) :=
  C18_updateConfig_stores_only (UnifiedMemoryManager.new cfg1MiB cfg1MiB) cfg1MiB rfl

/-! ## C19: equality of typed adapters -/

/-- C19.  For adapters of any element types, `a == b` holds exactly when both reference
the same manager instance and the same device; `a != b` is its negation; `==` is
reflexive, symmetric and transitive. -/
theorem C19_adapter_equality :
    (∀ (T U : Type) (a : MemoryAllocator T) (b : MemoryAllocator U),
      MemoryAllocator.eq a b = true ↔
        (a.memory_manager_ = b.memory_manager_ ∧ a.device_ = b.device_)) ∧
    (∀ (T U : Type) (a : MemoryAllocator T) (b : MemoryAllocator U),
      MemoryAllocator.ne a b = !(MemoryAllocator.eq a b)) ∧
    (∀ (T : Type) (a : MemoryAllocator T), MemoryAllocator.eq a a = true) ∧
    (∀ (T U : Type) (a : MemoryAllocator T) (b : MemoryAllocator U),
      MemoryAllocator.eq a b = true → MemoryAllocator.eq b a = true) ∧
    (∀ (T U V : Type) (a : MemoryAllocator T) (b : MemoryAllocator U) (c : MemoryAllocator V),
      MemoryAllocator.eq a b = true → MemoryAllocator.eq b c = true →
        MemoryAllocator.eq a c = true) := by
  refine ⟨?_, ?_, ?_, ?_, ?_⟩
  · intro T U a b
    simp [MemoryAllocator.eq]
  · intro T U a b
    rfl
  · intro T a
    simp [MemoryAllocator.eq]
  · intro T U a b h
    simp only [MemoryAllocator.eq, Bool.and_eq_true, beq_iff_eq] at h ⊢
    exact ⟨h.1.symm, h.2.symm⟩
  · intro T U V a b c h1 h2
    simp only [MemoryAllocator.eq, Bool.and_eq_true, beq_iff_eq] at h1 h2 ⊢
    exact ⟨h1.1.trans h2.1, h1.2.trans h2.2⟩

/-! ## C20: the default configuration -/

/-- C20 (code defect).  In the default-constructed `MemoryPoolConfig`, with the
initialisers evaluated in 32-bit `int` arithmetic, `initial_pool_size` is 1 GiB but
`4 * 1024 * 1024 * 1024` overflows to 0: `max_pool_size` is 0, not the 4 GiB of its
comment, and `initial_pool_size ≤ max_pool_size` fails. -/
theorem C20_default_max_pool_size_overflows :
    MemoryPoolConfig.default.initial_pool_size = 1073741824 ∧
    intMul (intMul (intMul 4 1024) 1024) 1024 = 0 ∧
    MemoryPoolConfig.default.max_pool_size = 0 ∧
    MemoryPoolConfig.default.max_pool_size ≠ 4294967296 ∧
    ¬ (MemoryPoolConfig.default.initial_pool_size ≤ MemoryPoolConfig.default.max_pool_size) := by
  refine ⟨by decide, by decide, by decide, by decide, by decide⟩

/-! ## C21: lock discipline -/

/-- C21 (code defect).  Three public operations break the lock discipline.
`allocatePinned` takes no lock: on a pool whose mutex another caller holds, where the
guarded operations `getFreeSize`, `allocate` and `deallocatePinned` wait, it goes ahead,
appends a record and returns, the mutex still held by the other caller.  `reallocate` on
the growth path, on either pool, and `GPUMemoryPool::allocate` after a strategy miss take
the pool's non-recursive mutex a second time while holding it and never return.  (In
`reallocate`, for a record that is no longer the newest the read of `block.size` before
that is already undefined.) -/
theorem C21_lock_discipline_is_broken (rt : CudaRuntime) (held p g : MemoryPool)
    (mem : Memory) (size ret now h new_size i : Nat) (tag : String) (b : MemoryBlock)
    (hheld : held.mutex_ = true) (hr : ret ≠ 0)
    (hm : p.mutex_ = false) (hh : h ≠ 0)
    (hlive : mapFind p.allocated_blocks_ h = some i) (hb : p.blocks_[i]? = some b)
    (hgt : b.size < new_size)
    (hg : g.mutex_ = false)
    (hmiss : GPUMemoryPool.allocateStrategy g size DeviceType.GPU = 0) :
    (CPUMemoryPool.getFreeSize held = none ∧
      CPUMemoryPool.allocate held size DeviceType.CPU tag ret now = none ∧
      CPUMemoryPool.deallocatePinned held ret = none) ∧
    ((CPUMemoryPool.allocatePinned held size tag ret now).1 = ret ∧
      (CPUMemoryPool.allocatePinned held size tag ret now).2.blocks_ = held.blocks_ ++
        [{ MemoryBlock.new ret size DeviceType.CPU tag now with isPinned := true }] ∧
      (CPUMemoryPool.allocatePinned held size tag ret now).2.mutex_ = true) ∧
    CPUMemoryPool.reallocate p mem h new_size ret now = none ∧
    GPUMemoryPool.reallocate rt p mem h new_size ret now = none ∧
    GPUMemoryPool.allocate g size DeviceType.GPU tag ret now = none := by
  have hn : new_size ≠ 0 := by omega
  have hle : ¬ new_size ≤ b.size := by omega
  refine ⟨⟨?_, (allocate_held held size tag ret now hheld).1, ?_⟩, ⟨?_, ?_, ?_⟩, ?_, ?_, ?_⟩
  · simp [CPUMemoryPool.getFreeSize, lockGuard_held _ _ hheld]
  · simp [CPUMemoryPool.deallocatePinned, hr, lockGuard_held _ _ hheld]
  · simp [CPUMemoryPool.allocatePinned, hr]
  · simp [CPUMemoryPool.allocatePinned, hr, recordBlock]
  · simp [CPUMemoryPool.allocatePinned, hr, recordBlock, hheld]
  · unfold CPUMemoryPool.reallocate
    rw [if_neg hh, if_neg hn, lockGuard_free _ _ hm]
    by_cases hnew : i + 1 = p.blocks_.length
    · simp only [hlive, derefBlock_newest _ _ hnew, hb, hle, ↓reduceIte,
        (allocate_held { p with mutex_ := true } new_size b.tag ret now rfl).1,
        Option.map_none']
    · simp only [hlive, derefBlock_older _ _ hnew, Option.map_none']
  · unfold GPUMemoryPool.reallocate
    rw [if_neg hh, if_neg hn, lockGuard_free _ _ hm]
    by_cases hnew : i + 1 = p.blocks_.length
    · simp only [hlive, derefBlock_newest _ _ hnew, hb, hle, ↓reduceIte,
        (allocate_held { p with mutex_ := true } new_size b.tag ret now rfl).2,
        Option.map_none']
    · simp only [hlive, derefBlock_older _ _ hnew, Option.map_none']
  · rw [GPU_allocate_eq g size DeviceType.GPU tag ret now hg]
    simp [GPUMemoryPool.isDeviceSupported, hmiss]

/-- C21 at a concrete input: a fresh pool whose mutex is held, a pool with one live
256-byte record asked to grow it to 500 bytes, and a fresh Accelerator pool. -/
theorem C21_lock_discipline_witness :
    (CPUMemoryPool.getFreeSize { freshPool with mutex_ := true } = none ∧
      CPUMemoryPool.allocate { freshPool with mutex_ := true } 4096 DeviceType.CPU "" 2 5 =
        none ∧
      CPUMemoryPool.deallocatePinned { freshPool with mutex_ := true } 2 = none) ∧
    ((CPUMemoryPool.allocatePinned { freshPool with mutex_ := true } 4096 "" 2 5).1 = 2 ∧
      (CPUMemoryPool.allocatePinned { freshPool with mutex_ := true } 4096 "" 2 5).2.blocks_ =
        ({ freshPool with mutex_ := true } : MemoryPool).blocks_ ++
        [{ MemoryBlock.new 2 4096 DeviceType.CPU "" 5 with isPinned := true }] ∧
      (CPUMemoryPool.allocatePinned { freshPool with mutex_ := true } 4096 "" 2 5).2.mutex_ =
        true) ∧
    CPUMemoryPool.reallocate (poolWithRecord 1 256 DeviceType.CPU) sampleMemory 1 500 2 5 =
      none ∧
    GPUMemoryPool.reallocate sampleRuntime (poolWithRecord 1 256 DeviceType.CPU) sampleMemory
      1 500 2 5 = none ∧
    GPUMemoryPool.allocate freshPool 4096 DeviceType.GPU "" 2 5 = none :=
  C21_lock_discipline_is_broken sampleRuntime { freshPool with mutex_ := true }
    (poolWithRecord 1 256 DeviceType.CPU) freshPool sampleMemory 4096 2 5 1 500 0 ""
    (MemoryBlock.new 1 256 DeviceType.CPU "" 0) rfl (by decide) rfl (by decide) rfl rfl
    (by decide) rfl rfl

theorem sumSizes_concat (l : List MemoryBlock) (b : MemoryBlock) :
    sumSizes (l ++ [b]) = sizeAdd (sumSizes l) b.size := by
  simp [sumSizes, List.foldl_append]

theorem getTotalSize_free (p : MemoryPool) (h : p.mutex_ = false) :
    CPUMemoryPool.getTotalSize p = some (sumSizes p.blocks_) := by
  simp [CPUMemoryPool.getTotalSize, lockGuard_free _ _ h]

/-! ## C25: what a strategy hit does -/

/-- C25 refuted at a concrete input: with free records of 256, 64 and 128 bytes under
best-fit, `allocate(50)` gets address `20` of the 64-byte record from the strategy and
returns it, but the pool then holds four records instead of three, `getTotalSize()` has
grown from 448 to 498, and the selected record is unchanged, its `isLocked` flag clear. -/
theorem C25_strategy_hit_creates_a_record :
    CPUMemoryPool.allocateStrategy (poolWithFreeList AllocationStrategy.BEST_FIT) 50
      DeviceType.CPU = 20 ∧
    CPUMemoryPool.getTotalSize (poolWithFreeList AllocationStrategy.BEST_FIT) = some 448 ∧
    ∃ q, CPUMemoryPool.allocate (poolWithFreeList AllocationStrategy.BEST_FIT) 50
        DeviceType.CPU "" 99 1 = some (20, q) ∧
      (poolWithFreeList AllocationStrategy.BEST_FIT).blocks_.length = 3 ∧
      q.blocks_.length = 4 ∧
      q.blocks_[1]? = some (freeRecord 20 64) ∧
      (freeRecord 20 64).isLocked = false ∧
      CPUMemoryPool.getTotalSize q = some 498 :=
  ⟨rfl, rfl, _, rfl, rfl, rfl, rfl, rfl, rfl⟩

/-- C25 (amended).  Whenever the configured strategy returns the non-null address `h` of
an existing record for `allocate(size)` on a Host pool, `allocate` returns `h`, leaves
every existing record as it is and appends a new record of `size` bytes at address `h`,
to which the live-handle map now sends `h`: the number of records grows by one and
`getTotalSize()` by `size`.  A record is thus created on a strategy hit as well as on the
growth path. -/
theorem C25_strategy_hit_appends_a_record (p : MemoryPool) (size : Nat)
    (device : DeviceType) (tag : String) (mallocRet now h : Nat)
    (hm : p.mutex_ = false) (hd : CPUMemoryPool.isDeviceSupported device = true)
    (hhit : CPUMemoryPool.allocateStrategy p size device = h) (hh : h ≠ 0) :
    ∃ q, CPUMemoryPool.allocate p size device tag mallocRet now = some (h, q) ∧
      q.blocks_ = p.blocks_ ++ [MemoryBlock.new h size device tag now] ∧
      q.blocks_.length = p.blocks_.length + 1 ∧
      mapFind q.allocated_blocks_ h = some p.blocks_.length ∧
      CPUMemoryPool.getTotalSize q =
        (CPUMemoryPool.getTotalSize p).map (fun t => sizeAdd t size) := by
  subst hhit
  rw [CPU_allocate_eq p size device tag mallocRet now hm]
  simp only [hd, Bool.true_eq_false, ↓reduceIte, if_pos hh]
  refine ⟨_, rfl, rfl, by simp, mapFind_mapAssign _ _ _, ?_⟩
  simp [CPUMemoryPool.getTotalSize, lockGuard, hm, sumSizes_concat, MemoryBlock.new]

/-- C25 (amended) at a concrete input: the three free records and a request of 50. -/
theorem C25_strategy_hit_witness :
    ∃ q, CPUMemoryPool.allocate (poolWithFreeList AllocationStrategy.BEST_FIT) 50
        DeviceType.CPU "" 99 1 = some (20, q) ∧
      q.blocks_ = (poolWithFreeList AllocationStrategy.BEST_FIT).blocks_ ++
        [MemoryBlock.new 20 50 DeviceType.CPU "" 1] ∧
      q.blocks_.length = (poolWithFreeList AllocationStrategy.BEST_FIT).blocks_.length + 1 ∧
      mapFind q.allocated_blocks_ 20 =
        some (poolWithFreeList AllocationStrategy.BEST_FIT).blocks_.length ∧
      CPUMemoryPool.getTotalSize q =
        (CPUMemoryPool.getTotalSize (poolWithFreeList AllocationStrategy.BEST_FIT)).map
          (fun t => sizeAdd t 50) :=
  C25_strategy_hit_appends_a_record (poolWithFreeList AllocationStrategy.BEST_FIT) 50
    DeviceType.CPU "" 99 1 20 rfl rfl rfl (by decide)

/-! ## C26: what `deallocate` does to the record -/

/-- C26 refuted at a concrete input: after `deallocate(1)` on the pool holding the live
4096-byte record at address `1`, the record's address is null, no record holds address
`1`, and `free(1)` has been called. -/
theorem C26_deallocate_releases_the_memory :
    ∃ q, CPUMemoryPool.deallocate poolOneLive 1 8 = some q ∧
      q.blocks_ = [{ MemoryBlock.new 0 4096 DeviceType.CPU "" 8 with isLocked := false }] ∧
      (∀ b ∈ q.blocks_, b.ptr ≠ 1) ∧
      poolOneLive.freed = [] ∧ q.freed = [1] :=
  ⟨_, rfl, rfl, by decide, rfl, rfl⟩

/-- C26 (amended).  For the live handle `h` of the newest record of a pool (the handle the
latest `allocate` returned, no record having been added since), the record holding address
`h` and size `s`: after `deallocate(h)` the pool still holds that record at the same
position, with size `s` and marked not allocated, but its address has been cleared to null
and the memory at `h` has been released: `deallocate` itself hands `h` to `free`
(`cudaFree` on the Accelerator pool), once. -/
theorem C26_deallocate_keeps_record_frees_memory (p : MemoryPool) (h i now : Nat)
    (b : MemoryBlock) (hm : p.mutex_ = false) (hh : h ≠ 0)
    (hlive : mapFind p.allocated_blocks_ h = some i)
    (hnew : i + 1 = p.blocks_.length) (hb : p.blocks_[i]? = some b)
    (hptr : b.ptr = h) :
    ∃ q, CPUMemoryPool.deallocate p h now = some q ∧
      GPUMemoryPool.deallocate p h now = some q ∧
      q.blocks_.length = p.blocks_.length ∧
      q.blocks_[i]? = some { b with isLocked := false, lastUsed := now, ptr := 0 } ∧
      q.freed = h :: p.freed := by
  have h1 := deallocate_live p h now i b hm hh hlive hnew hb
  have hi : i < p.blocks_.length := by omega
  have hfb : freeBlock { b with isLocked := false, lastUsed := now } p.freed =
      ({ b with isLocked := false, lastUsed := now, ptr := 0 }, h :: p.freed) := by
    simp [freeBlock, hptr, hh]
  rw [hfb] at h1
  refine ⟨_, h1, h1, by simp, ?_, rfl⟩
  simp [List.getElem?_set, hi]

/-- C26 (amended) at a concrete input: the live 4096-byte record at address `1`, the only
record of `poolOneLive`. -/
theorem C26_deallocate_witness :
    ∃ q, CPUMemoryPool.deallocate poolOneLive 1 8 = some q ∧
      GPUMemoryPool.deallocate poolOneLive 1 8 = some q ∧
      q.blocks_.length = poolOneLive.blocks_.length ∧
      q.blocks_[0]? = some { MemoryBlock.new 1 4096 DeviceType.CPU "" 7 with
        isLocked := false, lastUsed := 8, ptr := 0 } ∧
      q.freed = 1 :: poolOneLive.freed :=
  C26_deallocate_keeps_record_frees_memory poolOneLive 1 0 8
    (MemoryBlock.new 1 4096 DeviceType.CPU "" 7) rfl (by decide) rfl rfl rfl rfl

/-! ## C27: `deallocate` of an unrecognised handle -/

/-- C27.  On the Host and on the Accelerator pool, `deallocate(h)` of a handle that is
null or that the live-handle map does not know (never returned by the pool, or already
deallocated) returns and leaves the whole pool state, block records, live-handle map and
every statistics field, exactly unchanged.  A handle that has just been deallocated is
such a handle: the first `deallocate` (of the handle of the newest record, whose stored
pointer is valid) removes it from the map, so a second one is a no-op. -/
theorem C27_deallocate_unrecognised_is_no_op (p : MemoryPool) (h now : Nat)
    (hm : p.mutex_ = false) (hun : h = 0 ∨ mapFind p.allocated_blocks_ h = none) :
    CPUMemoryPool.deallocate p h now = some p ∧
    GPUMemoryPool.deallocate p h now = some p ∧
    (∀ (h2 i k : Nat) (b : MemoryBlock), h2 ≠ 0 → mapFind p.allocated_blocks_ h2 = some i →
      i + 1 = p.blocks_.length → p.blocks_[i]? = some b →
      ∃ q, CPUMemoryPool.deallocate p h2 k = some q ∧
        mapFind q.allocated_blocks_ h2 = none ∧
        CPUMemoryPool.deallocate q h2 now = some q ∧
        GPUMemoryPool.deallocate q h2 now = some q) := by
  have h0 : CPUMemoryPool.deallocate p h now = some p := by
    rcases hun with rfl | habs
    · exact deallocate_null p now
    · exact deallocate_absent p h now hm habs
  refine ⟨h0, h0, ?_⟩
  intro h2 i k b hh2 hlive hnew hb
  have h1 := deallocate_live p h2 k i b hm hh2 hlive hnew hb
  have h3 := deallocate_absent _ h2 now
    (show ({ p with
        blocks_ := p.blocks_.set i (freeBlock { b with isLocked := false, lastUsed := k } p.freed).1,
        stats_ := { p.stats_ with
          total_allocated := sizeSub p.stats_.total_allocated b.size,
          deallocation_count := sizeAdd p.stats_.deallocation_count 1 },
        freed := (freeBlock { b with isLocked := false, lastUsed := k } p.freed).2,
        allocated_blocks_ := mapErase p.allocated_blocks_ h2 } : MemoryPool).mutex_ = false
      from hm)
    (mapFind_mapErase _ _)
  exact ⟨_, h1, mapFind_mapErase _ _, h3, h3⟩

/-- C27 at a concrete input: an address the pool never returned. -/
theorem C27_deallocate_unrecognised_witness :
    CPUMemoryPool.deallocate poolOneLive 77 9 = some poolOneLive ∧
    GPUMemoryPool.deallocate poolOneLive 77 9 = some poolOneLive ∧
    (∀ (h2 i k : Nat) (b : MemoryBlock), h2 ≠ 0 →
      mapFind poolOneLive.allocated_blocks_ h2 = some i →
      i + 1 = poolOneLive.blocks_.length → poolOneLive.blocks_[i]? = some b →
      ∃ q, CPUMemoryPool.deallocate poolOneLive h2 k = some q ∧
        mapFind q.allocated_blocks_ h2 = none ∧
        CPUMemoryPool.deallocate q h2 9 = some q ∧
        GPUMemoryPool.deallocate q h2 9 = some q) :=
  C27_deallocate_unrecognised_is_no_op poolOneLive 77 9 rfl (Or.inr rfl)

/-! ## C28: accounting of `total_allocated` -/

/-- C28 (code defect).  On a Host pool, a growth-path `allocate(size)` that succeeds
raises `total_allocated` by `size` twice, once in `allocateNewBlock` and once more in
`allocate`; the following `deallocate` of the returned handle takes `size` off once.  So
`total_allocated` is not raised by exactly `size`, and the round trip does not restore
it, for any size that is not a multiple of `2 ^ 64`. -/
theorem C28_growth_counts_size_twice (p : MemoryPool) (size : Nat) (device : DeviceType)
    (tag : String) (mallocRet now now2 : Nat)
    (hm : p.mutex_ = false) (hd : CPUMemoryPool.isDeviceSupported device = true)
    (hs : CPUMemoryPool.allocateStrategy p size device = 0) (hr : mallocRet ≠ 0) :
    ∃ q q2, CPUMemoryPool.allocate p size device tag mallocRet now = some (mallocRet, q) ∧
      q.stats_.total_allocated = sizeAdd (sizeAdd p.stats_.total_allocated size) size ∧
      CPUMemoryPool.deallocate q mallocRet now2 = some q2 ∧
      q2.stats_.total_allocated =
        sizeSub (sizeAdd (sizeAdd p.stats_.total_allocated size) size) size ∧
      (size % SIZE_MOD ≠ 0 →
        q.stats_.total_allocated ≠ sizeAdd p.stats_.total_allocated size) ∧
      (size % SIZE_MOD ≠ 0 → p.stats_.total_allocated < SIZE_MOD →
        q2.stats_.total_allocated ≠ p.stats_.total_allocated) := by
  have ha := CPU_allocate_eq p size device tag mallocRet now hm
  simp only [hd, Bool.true_eq_false, ↓reduceIte, hs, ne_eq, not_true_eq_false, hr,
    not_false_eq_true] at ha
  have hdl := deallocate_live
    ({ p with
        blocks_ := p.blocks_ ++ [MemoryBlock.new mallocRet size device tag now],
        allocated_blocks_ := mapAssign p.allocated_blocks_ mallocRet p.blocks_.length,
        stats_ := bumpAllocStats
          { p.stats_ with total_allocated := sizeAdd p.stats_.total_allocated size } size } :
      MemoryPool)
    mallocRet now2 p.blocks_.length (MemoryBlock.new mallocRet size device tag now)
    hm hr (mapFind_mapAssign _ _ _) (by simp) (getElem?_concat _ _)
  refine ⟨_, _, ha, rfl, hdl, rfl, ?_, ?_⟩
  · intro hsz
    simp only [bumpAllocStats, sizeAdd]
    unfold SIZE_MOD at *
    omega
  · intro hsz hT
    simp only [bumpAllocStats, sizeAdd, sizeSub, MemoryBlock.new]
    unfold SIZE_MOD at *
    omega

/-- C28 at a concrete input: on a fresh pool `allocate(4096)` leaves `total_allocated`
at 8192, and the `deallocate` of the handle leaves it at 4096. -/
theorem C28_growth_counts_size_twice_witness :
    ∃ q q2, CPUMemoryPool.allocate freshPool 4096 DeviceType.CPU "" 1 7 = some (1, q) ∧
      q.stats_.total_allocated =
        sizeAdd (sizeAdd freshPool.stats_.total_allocated 4096) 4096 ∧
      CPUMemoryPool.deallocate q 1 8 = some q2 ∧
      q2.stats_.total_allocated =
        sizeSub (sizeAdd (sizeAdd freshPool.stats_.total_allocated 4096) 4096) 4096 ∧
      (4096 % SIZE_MOD ≠ 0 →
        q.stats_.total_allocated ≠ sizeAdd freshPool.stats_.total_allocated 4096) ∧
      (4096 % SIZE_MOD ≠ 0 → freshPool.stats_.total_allocated < SIZE_MOD →
        q2.stats_.total_allocated ≠ freshPool.stats_.total_allocated) :=
  C28_growth_counts_size_twice freshPool 4096 DeviceType.CPU "" 1 7 8 rfl rfl rfl (by decide)

/-! ## C29: addresses handed to `free` -/

theorem count_le_destroy_fold (a : Nat) (l : List MemoryBlock) :
    ∀ freed : List Nat, freed.count a ≤
      (l.foldl (fun freed block => if block.ptr ≠ 0 then block.ptr :: freed else freed)
        freed).count a := by
  induction l with
  | nil => intro freed; exact le_refl _
  | cons b l ih =>
    intro freed
    simp only [List.foldl]
    refine le_trans ?_ (ih _)
    split
    · exact List.count_le_count_cons _ _ _
    · exact le_refl _

/-- C29 (code defect).  `deallocatePinned` hands the address to `free` but leaves it in
the record, so the destructor hands it to `free` again: for every Host pool, after a
successful `allocatePinned`, the `deallocatePinned` of the handle and the destruction of
the pool, the address occurs at least twice in the trace of `free` calls.  Likewise, on a
fresh pool two consecutive `allocate(4096)` calls return the same address `1` (the second
is a best-fit hit on the first record, whose `isLocked` flag is clear), two records hold
address `1`, and the destructor frees it twice. -/
theorem C29_address_is_freed_twice (p : MemoryPool) (size : Nat) (tag : String)
    (mallocRet now : Nat) (hm : p.mutex_ = false) (hr : mallocRet ≠ 0) :
    (∃ q, CPUMemoryPool.deallocatePinned
        (CPUMemoryPool.allocatePinned p size tag mallocRet now).2 mallocRet = some q ∧
      (∃ b ∈ q.blocks_, b.ptr = mallocRet) ∧
      2 ≤ (CPUMemoryPool.destroy q).count mallocRet) ∧
    (∃ q1 q2, CPUMemoryPool.allocate freshPool 4096 DeviceType.CPU "" 1 0 = some (1, q1) ∧
      CPUMemoryPool.allocate q1 4096 DeviceType.CPU "" 2 1 = some (1, q2) ∧
      q2.blocks_.map (fun b => b.ptr) = [1, 1] ∧
      CPUMemoryPool.destroy q2 = [1, 1]) := by
  refine ⟨?_, _, _, rfl, rfl, rfl, rfl⟩
  have hq : ∃ pp, CPUMemoryPool.allocatePinned p size tag mallocRet now = (mallocRet, pp) ∧
      pp.mutex_ = false ∧ pp.freed = p.freed ∧
      pp.blocks_ = p.blocks_ ++
        [{ MemoryBlock.new mallocRet size DeviceType.CPU tag now with isPinned := true }] ∧
      pp.allocated_blocks_ = mapAssign p.allocated_blocks_ mallocRet p.blocks_.length := by
    refine ⟨(CPUMemoryPool.allocatePinned p size tag mallocRet now).2, ?_, ?_, ?_, ?_, ?_⟩ <;>
    simp [CPUMemoryPool.allocatePinned, hr, recordBlock, hm, MemoryBlock.new]
  obtain ⟨pp, hpp, hppm, hppf, hppb, hppa⟩ := hq
  rw [hpp]
  dsimp only
  have hd := deallocatePinned_live pp mallocRet p.blocks_.length
    { MemoryBlock.new mallocRet size DeviceType.CPU tag now with isPinned := true }
    hppm hr (by rw [hppa]; exact mapFind_mapAssign _ _ _) (by rw [hppb]; simp)
    (by rw [hppb]; exact getElem?_concat _ _) rfl
  refine ⟨_, hd,
    ⟨{ MemoryBlock.new mallocRet size DeviceType.CPU tag now with isPinned := true }, ?_, rfl⟩,
    ?_⟩
  · show _ ∈ pp.blocks_
    rw [hppb]
    simp
  · show 2 ≤ (List.foldl _ (mallocRet :: pp.freed) pp.blocks_).count mallocRet
    rw [hppb, List.foldl_append]
    have h1 := count_le_destroy_fold mallocRet p.blocks_ (mallocRet :: pp.freed)
    have h2 : 1 ≤ (mallocRet :: pp.freed).count mallocRet := by simp
    show 2 ≤ (if mallocRet ≠ 0 then mallocRet :: _ else _).count mallocRet
    rw [if_pos hr, List.count_cons_self]
    omega

/-- C29 at a concrete input: `allocatePinned(4096)` on a fresh pool, `deallocatePinned`
of the handle, then the destructor. -/
theorem C29_address_is_freed_twice_witness :
    (∃ q, CPUMemoryPool.deallocatePinned
        (CPUMemoryPool.allocatePinned freshPool 4096 "" 1 0).2 1 = some q ∧
      (∃ b ∈ q.blocks_, b.ptr = 1) ∧
      2 ≤ (CPUMemoryPool.destroy q).count 1) ∧
    (∃ q1 q2, CPUMemoryPool.allocate freshPool 4096 DeviceType.CPU "" 1 0 = some (1, q1) ∧
      CPUMemoryPool.allocate q1 4096 DeviceType.CPU "" 2 1 = some (1, q2) ∧
      q2.blocks_.map (fun b => b.ptr) = [1, 1] ∧
      CPUMemoryPool.destroy q2 = [1, 1]) :=
  C29_address_is_freed_twice freshPool 4096 "" 1 0 rfl (by decide)

/-! ## C30: growth of a fresh Accelerator pool -/

/-- C30 (code defect).  On an Accelerator pool without block records `getFreeSize()` is 0,
so for every `size > 0` `canAllocate(size, GPU)` is false and `allocateNewBlock(size, GPU)`
returns null without asking the device allocator, whatever `cudaMalloc` would have
answered; the public `allocate(size, GPU)` after the strategy miss does not even return,
since `canAllocate` calls the locking `getFreeSize` under the lock of `allocate`. -/
theorem C30_fresh_accelerator_pool_cannot_grow (p : MemoryPool) (size : Nat) (tag : String)
    (cudaRet now : Nat) (hm : p.mutex_ = false) (hempty : p.blocks_ = [])
    (hpos : 0 < size) :
    GPUMemoryPool.getFreeSize p = some 0 ∧
    GPUMemoryPool.canAllocate p size DeviceType.GPU = some false ∧
    GPUMemoryPool.allocateNewBlock p size DeviceType.GPU cudaRet = some (0, p) ∧
    GPUMemoryPool.allocateStrategy p size DeviceType.GPU = 0 ∧
    GPUMemoryPool.allocate p size DeviceType.GPU tag cudaRet now = none := by
  have hf : GPUMemoryPool.getFreeSize p = some 0 := by
    simp [GPUMemoryPool.getFreeSize, lockGuard_free _ _ hm, hempty, sumFree]
  have hc : GPUMemoryPool.canAllocate p size DeviceType.GPU = some false := by
    simp only [GPUMemoryPool.canAllocate, GPUMemoryPool.isDeviceSupported, hf]
    simp
    omega
  have hst : GPUMemoryPool.allocateStrategy p size DeviceType.GPU = 0 := by
    simp [GPUMemoryPool.allocateStrategy, allocateBestFit, hempty, freeList, bestFit,
      selectedPtr]
  refine ⟨hf, hc, ?_, hst, ?_⟩
  · simp only [GPUMemoryPool.allocateNewBlock, hc]
  · rw [GPU_allocate_eq p size DeviceType.GPU tag cudaRet now hm]
    simp [GPUMemoryPool.isDeviceSupported, hst]

/-- C30 at a concrete input: a fresh pool, 4096 bytes, `cudaMalloc` ready to answer
address `1`. -/
theorem C30_fresh_accelerator_pool_witness :
    GPUMemoryPool.getFreeSize freshPool = some 0 ∧
    GPUMemoryPool.canAllocate freshPool 4096 DeviceType.GPU = some false ∧
    GPUMemoryPool.allocateNewBlock freshPool 4096 DeviceType.GPU 1 = some (0, freshPool) ∧
    GPUMemoryPool.allocateStrategy freshPool 4096 DeviceType.GPU = 0 ∧
    GPUMemoryPool.allocate freshPool 4096 DeviceType.GPU "" 1 0 = none :=
  C30_fresh_accelerator_pool_cannot_grow freshPool 4096 "" 1 0 rfl rfl (by decide)

/-! ## C22: validation of a plugin configuration -/

/-- C22.  For every `PluginConfig`, `PluginManager::validatePluginConfig` and
`PluginConfigManager::validateConfig` each return true exactly when `name` is not empty,
`model_path` is not empty and `batch_size > 0`; hence the two agree on every input. -/
theorem C22_plugin_config_validation (c : PluginConfig) :
    (PluginManager.validatePluginConfig c = true ↔
      (c.name ≠ "" ∧ c.model_path ≠ "" ∧ 0 < c.batch_size)) ∧
    (PluginConfigManager.validateConfig c = true ↔
      (c.name ≠ "" ∧ c.model_path ≠ "" ∧ 0 < c.batch_size)) ∧
    PluginManager.validatePluginConfig c = PluginConfigManager.validateConfig c := by
  have key : PluginConfigManager.validateConfig c = true ↔
      (c.name ≠ "" ∧ c.model_path ≠ "" ∧ 0 < c.batch_size) := by
    unfold PluginConfigManager.validateConfig
    by_cases h1 : c.name = ""
    · simp [h1]
    · by_cases h2 : c.model_path = ""
      · simp [h2]
      · by_cases h3 : c.batch_size ≤ 0
        · simp [h1, h2, h3]
        · simp [h1, h2, h3]
          omega
  exact ⟨key, key, rfl⟩

/-! ## C23: the plugin configuration store -/

/-- C23 (code defect).  For a valid configuration `setPluginConfig(id, c)` stores the
entry and then calls the public `saveConfig`, which takes the manager's non-recursive
mutex that `setPluginConfig` is holding: the call never returns, so it does not return
true and no later `getPluginConfig` is reached.  For an invalid configuration it returns
false and leaves the manager unchanged, and `getPluginConfig` of an id that was never set
returns the default `PluginConfig`. -/
theorem C23_setPluginConfig_valid_never_returns (m : PluginConfigManager) (id : String)
    (c : PluginConfig) (hm : m.mutex_ = false) :
    (PluginConfigManager.validateConfig c = true →
      PluginConfigManager.setPluginConfig m id c = none) ∧
    (PluginConfigManager.validateConfig c = false →
      PluginConfigManager.setPluginConfig m id c = some (false, m)) ∧
    (smapFind m.configs_ id = none →
      PluginConfigManager.getPluginConfig m id = some PluginConfig.default) := by
  refine ⟨?_, ?_, ?_⟩
  · intro hv
    simp [PluginConfigManager.setPluginConfig, hm, hv, PluginConfigManager.saveConfig]
  · intro hv
    simp only [PluginConfigManager.setPluginConfig, hm, hv]
    cases m
    simp_all
  · intro hf
    simp [PluginConfigManager.getPluginConfig, hm, hf]

/-- C23 at the input of the tests: an empty store, id `test_plugin` and the test
configuration. -/
theorem C23_setPluginConfig_witness :
    (PluginConfigManager.validateConfig testPluginConfig = true →
      PluginConfigManager.setPluginConfig emptyConfigManager "test_plugin" testPluginConfig =
        none) ∧
    (PluginConfigManager.validateConfig testPluginConfig = false →
      PluginConfigManager.setPluginConfig emptyConfigManager "test_plugin" testPluginConfig =
        some (false, emptyConfigManager)) ∧
    (smapFind emptyConfigManager.configs_ "test_plugin" = none →
      PluginConfigManager.getPluginConfig emptyConfigManager "test_plugin" =
        some PluginConfig.default) :=
  C23_setPluginConfig_valid_never_returns emptyConfigManager "test_plugin" testPluginConfig rfl

/-! ## C24: loading a registered plugin -/

/-- C24 (code defect).  After `registerPlugin(name, factory)` has returned true, having
stored the factory and nothing else, `loadPlugin(name)` for a plugin that is not loaded yet
does not return: it never looks at the factories but calls `PluginLoader::loadPlugin`,
which takes the loader's non-recursive mutex and then calls the public `isPluginLoaded`,
which takes it again.  This holds whatever the platform would answer to `dlopen`.  The
plugin is therefore not loaded: `getPlugin(name)` is null, `isPluginLoaded` and
`isPluginInitialized` are false, `getPluginCount()` has not grown, and `unloadPlugin(name)`
returns false. -/
theorem C24_loading_a_registered_plugin_never_returns (dl : DynamicLinker) (m : PluginManager)
    (name : String) (factory : Nat) (hm : m.mutex_ = false) (hl : m.loader_.mutex_ = false)
    (hnew : smapFind m.plugins_ (PluginManager.generatePluginId name) = none) :
    ∃ m1, PluginManager.registerPlugin m name factory = some (true, m1) ∧
      smapFind m1.factories_ name = some factory ∧
      m1.plugins_ = m.plugins_ ∧
      PluginManager.loadPlugin dl m1 name = none ∧
      PluginManager.getPlugin m1 (PluginManager.generatePluginId name) = some 0 ∧
      PluginManager.isPluginLoaded m1 (PluginManager.generatePluginId name) = some false ∧
      PluginManager.isPluginInitialized m1 (PluginManager.generatePluginId name) =
        some false ∧
      PluginManager.getPluginCount m1 = PluginManager.getPluginCount m ∧
      PluginManager.unloadPlugin m1 (PluginManager.generatePluginId name) =
        some (false, m1) := by
  refine ⟨{ m with factories_ := smapAssign m.factories_ name factory }, ?_, ?_, rfl, ?_, ?_,
    ?_, ?_, ?_, ?_⟩
  · simp [PluginManager.registerPlugin, hm]
  · simp [smapFind, smapAssign, List.lookup]
  · simp [PluginManager.loadPlugin, hm, hnew, PluginLoader.loadPlugin, hl,
      PluginLoader.isPluginLoaded]
  · simp [PluginManager.getPlugin, hm, hnew]
  · simp [PluginManager.isPluginLoaded, hm, hnew]
  · simp [PluginManager.isPluginInitialized, hm, hnew]
  · simp [PluginManager.getPluginCount, hm]
  · simp [PluginManager.unloadPlugin, hm, hnew]

/-- C24 at the input of the tests: `registerPlugin("mock_plugin", factory)` then
`loadPlugin("mock_plugin")` on a manager with nothing loaded, on a platform where every
library would load. -/
theorem C24_loading_a_registered_plugin_witness :
    ∃ m1, PluginManager.registerPlugin emptyPluginManager "mock_plugin" 1 = some (true, m1) ∧
      smapFind m1.factories_ "mock_plugin" = some 1 ∧
      m1.plugins_ = emptyPluginManager.plugins_ ∧
      PluginManager.loadPlugin obligingLinker m1 "mock_plugin" = none ∧
      PluginManager.getPlugin m1 (PluginManager.generatePluginId "mock_plugin") = some 0 ∧
      PluginManager.isPluginLoaded m1 (PluginManager.generatePluginId "mock_plugin") =
        some false ∧
      PluginManager.isPluginInitialized m1 (PluginManager.generatePluginId "mock_plugin") =
        some false ∧
      PluginManager.getPluginCount m1 = PluginManager.getPluginCount emptyPluginManager ∧
      PluginManager.unloadPlugin m1 (PluginManager.generatePluginId "mock_plugin") =
        some (false, m1) :=
  C24_loading_a_registered_plugin_never_returns obligingLinker emptyPluginManager
    "mock_plugin" 1 rfl rfl rfl

end v8_ai
